import Mathlib

/-!
# Connection statistics recorder of rmfd (`src/rmfd/rmfd-stats.c`)

A shallow embedding of the statistics recorder.  The four file-scope statics of
the C file and the parts of the outside world the recorder touches (the files on
disk, the syslog sink and the GLib message log) are the fields of one record,
`World`, which every entry point transforms.  What the C code obtains from its
environment is passed to the embedded function as an extra argument, after the
arguments of the C function:

* `fopen_ok`   whether `fopen (stats_file_path, "w")` returns a stream,
* `now`        the value returned by a call of `time (NULL)`,
* `fprintf_ok` whether `fprintf (stats_file, "%s", line)` returns a
  non-negative value,
* `fflush_ok`  whether the `fflush (stats_file)` that follows a successful
  `fprintf` puts the line into the file; the C code does not look at the result
  of `fflush`, so a failed flush goes unnoticed.

A failed `g_assert` aborts the process; the embedded functions return
`Except Fault World` for that.

C strings are lists of characters.  `time_t` and `gulong` are taken to be 64 bits
wide (LP64); `time_t` values are integers and the conversion to `gulong` is
explicit.  `guint64` counters are natural numbers and are only ever printed.
-/

namespace Rmfd

/-! ## Strings, timestamps and formatting -/

/-- A C string (`gchar *`), without its terminating NUL. -/
abbrev gstring := List Char

/-- A `GDateTime` of GLib, reduced to the broken-down fields that the
format `"%F %T"` prints. -/
structure GDateTime where
  year : Nat
  month : Nat
  day : Nat
  hour : Nat
  minute : Nat
  second : Nat
deriving DecidableEq, Repr

/-- Decimal rendering of an unsigned number, as `%lu` and `G_GUINT64_FORMAT` give. -/
def fmt_unsigned (n : Nat) : gstring := Nat.toDigits 10 n

/-- Two-digit, zero-padded decimal field (`%m`, `%d`, `%H`, `%M`, `%S`). -/
def fmt_02 (n : Nat) : gstring :=
  if n < 10 then '0' :: fmt_unsigned n else fmt_unsigned n

/-- GLib `g_date_time_format (t, "%F %T")`: `%F` is `%Y-%m-%d` and `%T` is
`%H:%M:%S`. -/
def g_date_time_format_F_T (t : GDateTime) : gstring :=
  fmt_unsigned t.year ++ ['-'] ++ fmt_02 t.month ++ ['-'] ++ fmt_02 t.day ++ [' ']
    ++ fmt_02 t.hour ++ [':'] ++ fmt_02 t.minute ++ [':'] ++ fmt_02 t.second

/-- The expression
`t ? g_date_time_format (t, "%F %T") : g_strdup ("N/A")`
used by `write_record` and by `rmfd_stats_stop`. -/
def system_time_str (t : Option GDateTime) : gstring :=
  match t with
  | some d => g_date_time_format_F_T d
  | none => "N/A".toList

/-- `#define MAX_LINE_LENGTH 255` -/
def MAX_LINE_LENGTH : Nat := 255

/-- GLib `g_snprintf (buf, n, ...)` applied to the fully formatted text: at most
`n - 1` characters are stored in front of the terminating NUL. -/
def g_snprintf (n : Nat) (formatted : gstring) : gstring := formatted.take (n - 1)

/-- Conversion of a `time_t` value to `gulong` (64 bits, modular). -/
def to_gulong (x : Int) : Nat := (x % 2 ^ 64).toNat

/-- The `time_t` range (signed, 64 bits). -/
def is_time_t (t : Int) : Prop := -(2 ^ 63) ≤ t ∧ t < 2 ^ 63

instance (t : Int) : Decidable (is_time_t t) := by
  unfold is_time_t; infer_instance

/-- The duration expression of `write_record` (line 91) and of `rmfd_stats_stop`
(line 157): `(gulong) (second > first ? (second - first) : 0)`. -/
def duration (first_time second_time : Int) : Nat :=
  to_gulong (if second_time > first_time then second_time - first_time else 0)

/-- The text produced by the format string of `write_record`,
`"%c\t%s\t%s\t%lu\t%" G_GUINT64_FORMAT "\t%" G_GUINT64_FORMAT "\n"`. -/
def record_format (record_type : Char) (first_str second_str : gstring)
    (dur : Nat) (rx_bytes tx_bytes : Nat) : gstring :=
  [record_type] ++ ['\t'] ++ first_str ++ ['\t'] ++ second_str ++ ['\t']
    ++ fmt_unsigned dur ++ ['\t'] ++ fmt_unsigned rx_bytes ++ ['\t']
    ++ fmt_unsigned tx_bytes ++ ['\n']

/-- The `line` buffer of `write_record` after the `g_snprintf` call. -/
def record_line (record_type : Char) (first_str second_str : gstring)
    (dur : Nat) (rx_bytes tx_bytes : Nat) : gstring :=
  g_snprintf MAX_LINE_LENGTH (record_format record_type first_str second_str dur rx_bytes tx_bytes)

/-- The message formatted by `write_syslog_record`:
`"Connection stats [From: %s] [To: %s] [Duration: %lu] [RX: %llu] [TX: %llu]"`. -/
def syslog_format (from_timestamp to_timestamp : gstring)
    (dur : Nat) (rx_bytes tx_bytes : Nat) : gstring :=
  "Connection stats [From: ".toList ++ from_timestamp ++ "] [To: ".toList ++ to_timestamp
    ++ "] [Duration: ".toList ++ fmt_unsigned dur ++ "] [RX: ".toList ++ fmt_unsigned rx_bytes
    ++ "] [TX: ".toList ++ fmt_unsigned tx_bytes ++ "]".toList

/-! ## The outside world -/

/-- The files on disk: path and content.  The content of a file is kept as the
list of the strings written to it, oldest first; its bytes are their
concatenation. -/
abbrev FileStore := List (gstring × List gstring)

/-- Content of the file at `path`, if there is one. -/
def fs_lookup (path : gstring) : FileStore → Option (List gstring)
  | [] => none
  | (p, c) :: rest => if p = path then some c else fs_lookup path rest

/-- The path names a file. -/
def fs_exists (path : gstring) (fs : FileStore) : Bool := (fs_lookup path fs).isSome

/-- Effect on disk of a successful `fopen (path, "w")`: the file is created
empty, or truncated. -/
def fs_truncate (path : gstring) : FileStore → FileStore
  | [] => [(path, [])]
  | (p, c) :: rest => if p = path then (p, []) :: rest else (p, c) :: fs_truncate path rest

/-- Effect on disk of a successful `fprintf` followed by a successful `fflush` on a
stream opened on `path`: the text is appended (nothing visible happens when the
path names no file any more). -/
def fs_append (path : gstring) (text : gstring) : FileStore → FileStore
  | [] => []
  | (p, c) :: rest =>
    if p = path then (p, c ++ [text]) :: rest else (p, c) :: fs_append path text rest

/-- Effect on disk of `g_unlink (path)`. -/
def fs_unlink (path : gstring) : FileStore → FileStore
  | [] => []
  | (p, c) :: rest => if p = path then fs_unlink path rest else (p, c) :: fs_unlink path rest

/-- An open stdio stream (`FILE *`), identified by the path it was opened on. -/
structure FILE where
  path : gstring
deriving DecidableEq, Repr

/-- Levels of the GLib message log used by the recorder. -/
inductive GLogLevel where
  | warning
  | debug
deriving DecidableEq, Repr

/-- Priority `LOG_INFO` of syslog. -/
def LOG_INFO : Nat := 6

/-- The recorder and its surroundings. -/
structure World where
  /-- Static `stats_file`; `none` is `NULL`. -/
  stats_file : Option FILE
  /-- Static `stats_file_path`; `none` is `NULL`. -/
  stats_file_path : Option gstring
  /-- Static `start_system_time`; `none` is `NULL`. -/
  start_system_time : Option GDateTime
  /-- Static `start_time`. -/
  start_time : Int
  /-- The files on disk. -/
  fs : FileStore
  /-- The log sink: the messages handed to `rmfd_syslog`, oldest first. -/
  syslog : List (Nat × gstring)
  /-- The messages of `g_warning` and `g_debug`, oldest first. -/
  glog : List (GLogLevel × gstring)
deriving DecidableEq, Repr

/-- Abort of the process by a failed `g_assert`. -/
inductive Fault where
  | assertion_failed
deriving DecidableEq, Repr

deriving instance DecidableEq for Except

/-- Modelled from the spec: `rmfd_syslog` is declared in `rmfd-syslog.h`, which is
not among the sources.  It is the log sink of the spec, an append-only destination
that receives one formatted line per call. -/
def rmfd_syslog (priority : Nat) (message : gstring) (w : World) : World :=
  { w with syslog := w.syslog ++ [(priority, message)] }

/-- GLib `g_warning`: one message on the GLib log (the `g_strerror` text that the
C code appends is left out). -/
def g_warning (message : gstring) (w : World) : World :=
  { w with glog := w.glog ++ [(GLogLevel.warning, message)] }

/-- GLib `g_debug`. -/
def g_debug (message : gstring) (w : World) : World :=
  { w with glog := w.glog ++ [(GLogLevel.debug, message)] }

/-! ## The recorder -/

/-- `write_syslog_record` (lines 43-58). -/
def write_syslog_record (from_timestamp to_timestamp : gstring) (dur : Nat)
    (rx_bytes tx_bytes : Nat) (w : World) : World :=
  rmfd_syslog LOG_INFO (syslog_format from_timestamp to_timestamp dur rx_bytes tx_bytes) w

/-- `write_record` (lines 63-102).  A failed `fprintf` is reported by a warning
(lines 95-96).  After a successful `fprintf` the stream is flushed (line 98) and
the result of the flush is ignored: when the flush fails the line does not reach
the file and nothing is reported. -/
def write_record (record_type : Char)
    (first_system_time : Option GDateTime) (first_time : Int)
    (second_system_time : Option GDateTime) (second_time : Int)
    (rx_bytes tx_bytes : Nat) (fprintf_ok : Bool) (fflush_ok : Bool) (w : World) :
    Except Fault World :=
  if ¬ (record_type = 'S' ∨ record_type = 'P' ∨ record_type = 'F') then
    Except.error Fault.assertion_failed
  else
    match w.stats_file with
    | none => Except.ok w
    | some f =>
      let line := record_line record_type (system_time_str first_system_time)
        (system_time_str second_system_time) (duration first_time second_time)
        rx_bytes tx_bytes
      if fprintf_ok then
        if fflush_ok then
          Except.ok { w with fs := fs_append f.path line w.fs }
        else
          Except.ok w
      else
        Except.ok (g_warning "error: cannot write to stats file".toList w)

/-- `rmfd_stats_start` (lines 106-123).  `fopen` on a `NULL` path fails. -/
def rmfd_stats_start (system_time : Option GDateTime)
    (fopen_ok : Bool) (now : Int) (fprintf_ok : Bool) (fflush_ok : Bool) (w : World) :
    Except Fault World :=
  match (if fopen_ok then w.stats_file_path else none) with
  | none =>
    Except.ok (g_warning "error: cannot open stats file".toList { w with stats_file := none })
  | some path =>
    let w1 : World :=
      { w with stats_file := some { path := path }, fs := fs_truncate path w.fs }
    let w2 : World := { w1 with start_system_time := system_time, start_time := now }
    write_record 'S' w2.start_system_time w2.start_time w2.start_system_time w2.start_time
      0 0 fprintf_ok fflush_ok w2

/-- `rmfd_stats_tmp` (lines 125-131). -/
def rmfd_stats_tmp (tmp_system_time : Option GDateTime) (rx_bytes tx_bytes : Nat)
    (now : Int) (fprintf_ok : Bool) (fflush_ok : Bool) (w : World) : Except Fault World :=
  write_record 'P' w.start_system_time w.start_time tmp_system_time now
    rx_bytes tx_bytes fprintf_ok fflush_ok w

/-- The block "Syslog writing" of `rmfd_stats_stop` (lines 144-163); `stop_time` is
the value of its own `time (NULL)` call. -/
def stop_syslog (stop_system_time : Option GDateTime) (rx_bytes tx_bytes : Nat)
    (stop_time : Int) (w : World) : World :=
  let from_str := system_time_str w.start_system_time
  let to_str := system_time_str stop_system_time
  write_syslog_record from_str to_str (duration w.start_time stop_time) rx_bytes tx_bytes
    (g_debug "writing stats to syslog...".toList w)

/-- The cleanup of `rmfd_stats_stop` (lines 165-174): the session fields are reset
and the stream, if any, is closed. -/
def stop_cleanup (w : World) : World :=
  { w with start_system_time := none, start_time := 0, stats_file := none }

/-- The removal of the file at the end of `rmfd_stats_stop` (lines 176-178);
`g_unlink` on a `NULL` path fails and removes nothing. -/
def stop_unlink (w : World) : World :=
  let w1 := g_debug "removing stats file...".toList w
  match w1.stats_file_path with
  | none => w1
  | some path => { w1 with fs := fs_unlink path w1.fs }

/-- The call of `write_record` in `rmfd_stats_stop` (line 142); `now` is the
value of its `time (NULL)` argument. -/
def stop_final_record (stop_system_time : Option GDateTime) (rx_bytes tx_bytes : Nat)
    (now : Int) (fprintf_ok : Bool) (fflush_ok : Bool) (w : World) : Except Fault World :=
  write_record 'F' w.start_system_time w.start_time stop_system_time now
    rx_bytes tx_bytes fprintf_ok fflush_ok w

/-- `rmfd_stats_stop` (lines 133-179).  `now` is the clock value read for the
final record, `stop_time` the one read for the syslog line. -/
def rmfd_stats_stop (stop_system_time : Option GDateTime) (rx_bytes tx_bytes : Nat)
    (now : Int) (fprintf_ok : Bool) (fflush_ok : Bool) (stop_time : Int) (w : World) :
    Except Fault World :=
  match w.start_system_time with
  | none => Except.ok w
  | some _ =>
    match stop_final_record stop_system_time rx_bytes tx_bytes now fprintf_ok fflush_ok w with
    | Except.error e => Except.error e
    | Except.ok w1 =>
      Except.ok (stop_unlink (stop_cleanup (stop_syslog stop_system_time rx_bytes tx_bytes
        stop_time w1)))

/-- `rmfd_stats_setup` (lines 181-188); `g_strdup (NULL)` is `NULL`. -/
def rmfd_stats_setup (path : Option gstring) (w : World) : Except Fault World :=
  if w.stats_file.isSome then Except.error Fault.assertion_failed
  else if w.stats_file_path.isSome then Except.error Fault.assertion_failed
  else Except.ok { w with stats_file_path := path }

/-- `rmfd_stats_teardown` (lines 190-205). -/
def rmfd_stats_teardown (w : World) : World :=
  { w with start_system_time := none, stats_file := none, stats_file_path := none }

/-! ## Call sequences -/

/-- The arguments of one `rmfd_stats_tmp` call together with what the call reads
from its environment. -/
structure TmpCall where
  tmp_system_time : Option GDateTime
  rx_bytes : Nat
  tx_bytes : Nat
  now : Int
  fprintf_ok : Bool
  fflush_ok : Bool
deriving DecidableEq, Repr

/-- A series of `rmfd_stats_tmp` calls, in order. -/
def run_tmp_calls : List TmpCall → World → Except Fault World
  | [], w => Except.ok w
  | c :: cs, w =>
    match rmfd_stats_tmp c.tmp_system_time c.rx_bytes c.tx_bytes c.now c.fprintf_ok c.fflush_ok w with
    | Except.error e => Except.error e
    | Except.ok w1 => run_tmp_calls cs w1

/-- The line that `rmfd_stats_tmp` composes in world `w` for the call `c`. -/
def tmp_line (w : World) (c : TmpCall) : gstring :=
  record_line 'P' (system_time_str w.start_system_time) (system_time_str c.tmp_system_time)
    (duration w.start_time c.now) c.rx_bytes c.tx_bytes

/-- The statics as they are when the process starts, in a world with no files and
no messages. -/
def fresh_world : World :=
  { stats_file := none, stats_file_path := none, start_system_time := none, start_time := 0,
    fs := [], syslog := [], glog := [] }

/-- The first character of a line: the type tag of a record. -/
def record_tag (line : gstring) : Option Char := line.head?

/-- The six fields of a record, in the order of the format string of
`write_record`. -/
def record_fields (record_type : Char) (first_str second_str : gstring)
    (dur rx_bytes tx_bytes : Nat) : List gstring :=
  [[record_type], first_str, second_str, fmt_unsigned dur, fmt_unsigned rx_bytes,
    fmt_unsigned tx_bytes]

/-- One call of an entry point of the recorder, with its arguments and with what
the call reads from its environment. -/
inductive Call where
  | setup (path : Option gstring)
  | start (system_time : Option GDateTime) (fopen_ok : Bool) (now : Int) (fprintf_ok : Bool)
      (fflush_ok : Bool)
  | tmp (tmp_system_time : Option GDateTime) (rx_bytes tx_bytes : Nat) (now : Int)
      (fprintf_ok : Bool) (fflush_ok : Bool)
  | stop (stop_system_time : Option GDateTime) (rx_bytes tx_bytes : Nat) (now : Int)
      (fprintf_ok : Bool) (fflush_ok : Bool) (stop_time : Int)
  | teardown
deriving DecidableEq, Repr

/-- The effect of one call. -/
def run_call : Call → World → Except Fault World
  | Call.setup path, w => rmfd_stats_setup path w
  | Call.start system_time fopen_ok now fprintf_ok fflush_ok, w =>
    rmfd_stats_start system_time fopen_ok now fprintf_ok fflush_ok w
  | Call.tmp tmp_system_time rx_bytes tx_bytes now fprintf_ok fflush_ok, w =>
    rmfd_stats_tmp tmp_system_time rx_bytes tx_bytes now fprintf_ok fflush_ok w
  | Call.stop stop_system_time rx_bytes tx_bytes now fprintf_ok fflush_ok stop_time, w =>
    rmfd_stats_stop stop_system_time rx_bytes tx_bytes now fprintf_ok fflush_ok stop_time w
  | Call.teardown, w => Except.ok (rmfd_stats_teardown w)

/-- The effect of a series of calls, in order; an abort ends the series. -/
def run_calls : List Call → World → Except Fault World
  | [], w => Except.ok w
  | c :: cs, w =>
    match run_call c w with
    | Except.error e => Except.error e
    | Except.ok w1 => run_calls cs w1

/-- The statics have the values they have when the process starts. -/
def is_initial (w : World) : Prop :=
  w.stats_file = none ∧ w.stats_file_path = none ∧ w.start_system_time = none
    ∧ w.start_time = 0

instance (w : World) : Decidable (is_initial w) := by
  unfold is_initial; infer_instance

/-- The stream is present exactly when the session-start timestamp is. -/
def handle_iff_start_time (w : World) : Prop :=
  w.stats_file.isSome = true ↔ w.start_system_time.isSome = true

instance (w : World) : Decidable (handle_iff_start_time w) := by
  unfold handle_iff_start_time; infer_instance

/-- A call made in world `w` is regular when it is not a start, or it is a start
that opens the file and is given a system time, or it is a start that fails to
open the file while no session-start timestamp is stored. -/
def regular_call (c : Call) (w : World) : Bool :=
  match c with
  | Call.start system_time fopen_ok _ _ _ =>
    if fopen_ok && w.stats_file_path.isSome then system_time.isSome
    else w.start_system_time.isNone
  | _ => true

/-- Every call of the series is regular in the world in which it is made. -/
def regular_calls : List Call → World → Bool
  | [], _ => true
  | c :: cs, w =>
    regular_call c w &&
      match run_call c w with
      | Except.error _ => true
      | Except.ok w1 => regular_calls cs w1

/-- The steps of `rmfd_stats_stop` behind its first test, in source order: the
final record (line 142), the syslog block (lines 144-163), the cleanup (lines
165-174) and the removal of the file (lines 176-178). -/
def stop_steps (stop_system_time : Option GDateTime) (rx_bytes tx_bytes : Nat)
    (now : Int) (fprintf_ok : Bool) (fflush_ok : Bool) (stop_time : Int) :
    List (World → Except Fault World) :=
  [stop_final_record stop_system_time rx_bytes tx_bytes now fprintf_ok fflush_ok,
   fun w => Except.ok (stop_syslog stop_system_time rx_bytes tx_bytes stop_time w),
   fun w => Except.ok (stop_cleanup w),
   fun w => Except.ok (stop_unlink w)]

/-- Steps run one after the other; an abort ends the run. -/
def run_steps : List (World → Except Fault World) → World → Except Fault World
  | [], w => Except.ok w
  | step :: steps, w =>
    match step w with
    | Except.error e => Except.error e
    | Except.ok w1 => run_steps steps w1

/-- A session in progress: path "/tmp/x" configured, started with the timestamp
2015-01-01 00:00:00 at clock value 1000, the stream open and the file holding
its 'S' record. -/
def session_world : World :=
  { stats_file := some { path := "/tmp/x".toList },
    stats_file_path := some "/tmp/x".toList,
    start_system_time := some ⟨2015, 1, 1, 0, 0, 0⟩,
    start_time := 1000,
    fs := [("/tmp/x".toList,
            ["S\t2015-01-01 00:00:00\t2015-01-01 00:00:00\t0\t0\t0\n".toList])],
    syslog := [],
    glog := [] }

/-- The stream, when there is one, was opened on the configured path. -/
def stream_on_path (w : World) : Prop :=
  w.stats_file = none ∨ w.stats_file.map FILE.path = w.stats_file_path

instance (w : World) : Decidable (stream_on_path w) := by
  unfold stream_on_path; infer_instance

/-- With a session-start timestamp stored, a path is configured and names a file
on disk. -/
def session_has_file (w : World) : Prop :=
  w.start_system_time = none
    ∨ (w.stats_file_path.bind (fun path => fs_lookup path w.fs)).isSome = true

instance (w : World) : Decidable (session_has_file w) := by
  unfold session_has_file; infer_instance

/-! ## Lemmas on the file store -/

theorem fs_lookup_truncate (path : gstring) (fs : FileStore) :
    fs_lookup path (fs_truncate path fs) = some [] := by
  induction fs with
  | nil => simp [fs_truncate, fs_lookup]
  | cons e rest ih =>
    obtain ⟨p, c⟩ := e
    by_cases h : p = path
    · simp [fs_truncate, fs_lookup, h]
    · simp [fs_truncate, fs_lookup, h, ih]

theorem fs_lookup_append (path : gstring) (text : gstring) (fs : FileStore)
    (content : List gstring) (h : fs_lookup path fs = some content) :
    fs_lookup path (fs_append path text fs) = some (content ++ [text]) := by
  induction fs with
  | nil => simp [fs_lookup] at h
  | cons e rest ih =>
    obtain ⟨p, c⟩ := e
    by_cases hp : p = path
    · simp [fs_lookup, hp] at h
      simp [fs_append, fs_lookup, hp, h]
    · simp [fs_lookup, hp] at h
      simp [fs_append, fs_lookup, hp, ih h]

theorem fs_lookup_unlink (path : gstring) (fs : FileStore) :
    fs_lookup path (fs_unlink path fs) = none := by
  induction fs with
  | nil => simp [fs_unlink, fs_lookup]
  | cons e rest ih =>
    obtain ⟨p, c⟩ := e
    by_cases h : p = path
    · simp [fs_unlink, h, ih]
    · simp [fs_unlink, fs_lookup, h, ih]

/-! ## Lemmas on the recorder -/

theorem write_record_closed (record_type : Char) (fst : Option GDateTime) (ft : Int)
    (snd : Option GDateTime) (st : Int) (rx tx : Nat) (ok fl : Bool) (w : World)
    (htag : record_type = 'S' ∨ record_type = 'P' ∨ record_type = 'F')
    (hfile : w.stats_file = none) :
    write_record record_type fst ft snd st rx tx ok fl w = Except.ok w := by
  simp [write_record, htag, hfile]

theorem write_record_open (record_type : Char) (fst : Option GDateTime) (ft : Int)
    (snd : Option GDateTime) (st : Int) (rx tx : Nat) (w : World) (f : FILE)
    (htag : record_type = 'S' ∨ record_type = 'P' ∨ record_type = 'F')
    (hfile : w.stats_file = some f) :
    write_record record_type fst ft snd st rx tx true true w
      = Except.ok { w with fs := (fs_append f.path
          (record_line record_type (system_time_str fst) (system_time_str snd)
            (duration ft st) rx tx) w.fs) } := by
  simp [write_record, htag, hfile]

/-- A call of `write_record` with one of the three tags never aborts, and it
leaves the statics and the syslog sink as they are. -/
theorem write_record_frame (record_type : Char) (fst : Option GDateTime) (ft : Int)
    (snd : Option GDateTime) (st : Int) (rx tx : Nat) (ok fl : Bool) (w : World)
    (htag : record_type = 'S' ∨ record_type = 'P' ∨ record_type = 'F') :
    ∃ w1, write_record record_type fst ft snd st rx tx ok fl w = Except.ok w1
      ∧ w1.stats_file = w.stats_file ∧ w1.stats_file_path = w.stats_file_path
      ∧ w1.start_system_time = w.start_system_time ∧ w1.start_time = w.start_time
      ∧ w1.syslog = w.syslog := by
  cases hf : w.stats_file with
  | none =>
    exact ⟨w, write_record_closed _ _ _ _ _ _ _ _ _ _ htag hf, hf, rfl, rfl, rfl, rfl⟩
  | some f =>
    cases ok with
    | true =>
      cases fl with
      | true =>
        exact ⟨_, write_record_open _ _ _ _ _ _ _ _ f htag hf, hf, rfl, rfl, rfl, rfl⟩
      | false =>
        refine ⟨w, ?_, hf, rfl, rfl, rfl, rfl⟩
        simp [write_record, htag, hf]
    | false =>
      refine ⟨g_warning "error: cannot write to stats file".toList w, ?_, hf, rfl, rfl, rfl, rfl⟩
      simp [write_record, htag, hf]

/-- On a world with no session-start timestamp `rmfd_stats_stop` returns at once. -/
theorem stop_without_start_time (t : Option GDateTime) (rx tx : Nat) (now : Int) (ok fl : Bool)
    (stop_time : Int) (w : World) (h : w.start_system_time = none) :
    rmfd_stats_stop t rx tx now ok fl stop_time w = Except.ok w := by
  simp [rmfd_stats_stop, h]

/-- What `rmfd_stats_stop` does never aborts, and afterwards no session-start
timestamp is stored. -/
theorem stop_clears_start_time (t : Option GDateTime) (rx tx : Nat) (now : Int) (ok fl : Bool)
    (stop_time : Int) (w : World) :
    ∃ w1, rmfd_stats_stop t rx tx now ok fl stop_time w = Except.ok w1
      ∧ w1.start_system_time = none := by
  cases h : w.start_system_time with
  | none => exact ⟨w, stop_without_start_time _ _ _ _ _ _ _ _ h, h⟩
  | some t0 =>
    obtain ⟨w1, hw1, -⟩ := write_record_frame 'F' w.start_system_time w.start_time t now
      rx tx ok fl w (Or.inr (Or.inr rfl))
    refine ⟨stop_unlink (stop_cleanup (stop_syslog t rx tx stop_time w1)), ?_, ?_⟩
    · simp [rmfd_stats_stop, stop_final_record, h] at hw1 ⊢
      simp [hw1]
    · simp only [stop_unlink, g_debug]
      cases hp : (stop_cleanup (stop_syslog t rx tx stop_time w1)).stats_file_path <;>
        simp [hp, stop_cleanup]

/-- A start that opens the file: the resulting statics and the untouched syslog. -/
theorem start_opened (t : Option GDateTime) (now : Int) (ok fl : Bool) (w : World)
    (path : gstring) (hp : w.stats_file_path = some path) :
    ∃ w1, rmfd_stats_start t true now ok fl w = Except.ok w1
      ∧ w1.stats_file = some { path := path } ∧ w1.stats_file_path = some path
      ∧ w1.start_system_time = t ∧ w1.start_time = now ∧ w1.syslog = w.syslog := by
  obtain ⟨w1, h1, hf, hpath, hst, htime, hsys⟩ := write_record_frame 'S' t now t now 0 0 ok fl
    { w with stats_file := some { path := path }, fs := fs_truncate path w.fs,
             start_system_time := t, start_time := now } (Or.inl rfl)
  refine ⟨w1, ?_, hf, ?_, hst, htime, hsys⟩
  · simpa [rmfd_stats_start, hp] using h1
  · rw [hpath]
    exact hp

/-- A series of checkpoints never aborts and leaves the statics and the syslog
sink as they are. -/
theorem run_tmp_calls_frame (calls : List TmpCall) (w : World) :
    ∃ w1, run_tmp_calls calls w = Except.ok w1
      ∧ w1.stats_file = w.stats_file ∧ w1.stats_file_path = w.stats_file_path
      ∧ w1.start_system_time = w.start_system_time ∧ w1.start_time = w.start_time
      ∧ w1.syslog = w.syslog := by
  induction calls generalizing w with
  | nil => exact ⟨w, rfl, rfl, rfl, rfl, rfl, rfl⟩
  | cons c cs ih =>
    obtain ⟨w1, h1, hf, hp, hst, htime, hsys⟩ := write_record_frame 'P' w.start_system_time
      w.start_time c.tmp_system_time c.now c.rx_bytes c.tx_bytes c.fprintf_ok c.fflush_ok w
      (Or.inr (Or.inl rfl))
    obtain ⟨w2, h2, hf2, hp2, hst2, htime2, hsys2⟩ := ih w1
    refine ⟨w2, ?_, hf2.trans hf, hp2.trans hp, hst2.trans hst, htime2.trans htime,
      hsys2.trans hsys⟩
    simp only [run_tmp_calls, rmfd_stats_tmp, h1]
    exact h2

/-- Stop on a world that holds a session-start timestamp: the final record is
attempted, then the summary is logged, the statics are reset and the file at the
configured path is removed. -/
theorem stop_with_start_time (t : Option GDateTime) (rx tx : Nat) (now : Int) (ok fl : Bool)
    (stop_time : Int) (w : World) (t0 : GDateTime) (h : w.start_system_time = some t0) :
    ∃ w1, stop_final_record t rx tx now ok fl w = Except.ok w1
      ∧ rmfd_stats_stop t rx tx now ok fl stop_time w
          = Except.ok (stop_unlink (stop_cleanup (stop_syslog t rx tx stop_time w1)))
      ∧ w1.stats_file = w.stats_file ∧ w1.stats_file_path = w.stats_file_path
      ∧ w1.start_system_time = w.start_system_time ∧ w1.start_time = w.start_time
      ∧ w1.syslog = w.syslog := by
  obtain ⟨w1, hw1, hrest⟩ := write_record_frame 'F' w.start_system_time w.start_time t now
    rx tx ok fl w (Or.inr (Or.inr rfl))
  refine ⟨w1, hw1, ?_, hrest⟩
  have hw1b : stop_final_record t rx tx now ok fl w = Except.ok w1 := hw1
  simp [rmfd_stats_stop, h, hw1b]

theorem stop_unlink_syslog (w : World) : (stop_unlink w).syslog = w.syslog := by
  simp only [stop_unlink, g_debug]
  split <;> rfl

theorem stop_unlink_stats_file (w : World) : (stop_unlink w).stats_file = w.stats_file := by
  simp only [stop_unlink, g_debug]
  split <;> rfl

theorem stop_unlink_removes (w : World) (path : gstring) (h : w.stats_file_path = some path) :
    fs_lookup path (stop_unlink w).fs = none := by
  simp [stop_unlink, g_debug, h, fs_lookup_unlink]

/-- A session started with a timestamp, with the file opened, any checkpoints, then
stop: every call returns normally, the file is gone from the configured path, no
stream is left and the syslog sink has grown by exactly one line. -/
theorem session_with_start_time_is_finalized (w : World) (path : gstring)
    (hp : w.stats_file_path = some path) (t0 : GDateTime) (now0 : Int) (ok0 fl0 : Bool)
    (calls : List TmpCall) (t : Option GDateTime) (rx tx : Nat) (now : Int) (ok fl : Bool)
    (stop_time : Int) :
    ∃ w1 w2 w3, rmfd_stats_start (some t0) true now0 ok0 fl0 w = Except.ok w1
      ∧ run_tmp_calls calls w1 = Except.ok w2
      ∧ rmfd_stats_stop t rx tx now ok fl stop_time w2 = Except.ok w3
      ∧ fs_lookup path w3.fs = none
      ∧ w3.stats_file = none
      ∧ w3.syslog = w.syslog ++ [(LOG_INFO, syslog_format (g_date_time_format_F_T t0)
          (system_time_str t) (duration now0 stop_time) rx tx)] := by
  obtain ⟨w1, h1, -, hp1, hst1, htime1, hsys1⟩ := start_opened (some t0) now0 ok0 fl0 w path hp
  obtain ⟨w2, h2, -, hp2, hst2, htime2, hsys2⟩ := run_tmp_calls_frame calls w1
  obtain ⟨wf, -, h3, -, hpf, hstf, htimef, hsysf⟩ :=
    stop_with_start_time t rx tx now ok fl stop_time w2 t0 (hst2.trans hst1)
  refine ⟨w1, w2, _, h1, h2, h3, ?_, ?_, ?_⟩
  · apply stop_unlink_removes
    simp only [stop_cleanup, stop_syslog, write_syslog_record, rmfd_syslog, g_debug]
    rw [hpf, hp2, hp1]
  · rw [stop_unlink_stats_file]
    rfl
  · rw [stop_unlink_syslog]
    simp only [stop_cleanup, stop_syslog, write_syslog_record, rmfd_syslog, g_debug]
    rw [hsysf, hsys2, hsys1, hstf, hst2, hst1, htimef, htime2, htime1]
    rfl

theorem to_gulong_zero : to_gulong 0 = 0 := by
  simp [to_gulong]

theorem duration_self (t : Int) : duration t t = 0 := by
  simp [duration, to_gulong_zero]

/-- The type tag of a composed line is the character given to `write_record`. -/
theorem record_tag_record_line (record_type : Char) (first_str second_str : gstring)
    (dur rx tx : Nat) :
    record_tag (record_line record_type first_str second_str dur rx tx) = some record_type := by
  simp [record_tag, record_line, record_format, g_snprintf, MAX_LINE_LENGTH]

/-- A successful write on the open stream appends the composed line to the file
the stream was opened on. -/
theorem write_record_appends (record_type : Char) (fst : Option GDateTime) (ft : Int)
    (snd : Option GDateTime) (st : Int) (rx tx : Nat) (w : World) (f : FILE)
    (content : List gstring)
    (htag : record_type = 'S' ∨ record_type = 'P' ∨ record_type = 'F')
    (hfile : w.stats_file = some f) (hc : fs_lookup f.path w.fs = some content) :
    ∃ w1, write_record record_type fst ft snd st rx tx true true w = Except.ok w1
      ∧ fs_lookup f.path w1.fs = some (content ++ [record_line record_type
          (system_time_str fst) (system_time_str snd) (duration ft st) rx tx])
      ∧ w1.stats_file = w.stats_file ∧ w1.stats_file_path = w.stats_file_path
      ∧ w1.start_system_time = w.start_system_time ∧ w1.start_time = w.start_time
      ∧ w1.syslog = w.syslog := by
  refine ⟨_, write_record_open record_type fst ft snd st rx tx w f htag hfile, ?_,
    rfl, rfl, rfl, rfl, rfl⟩
  exact fs_lookup_append _ _ _ _ hc

/-- A start that opens the file and writes its record: the file holds exactly the
'S' line. -/
theorem start_opened_content (t : Option GDateTime) (now : Int) (w : World)
    (path : gstring) (hp : w.stats_file_path = some path) :
    ∃ w1, rmfd_stats_start t true now true true w = Except.ok w1
      ∧ fs_lookup path w1.fs
          = some [record_line 'S' (system_time_str t) (system_time_str t) 0 0 0]
      ∧ w1.stats_file = some { path := path } ∧ w1.stats_file_path = some path
      ∧ w1.start_system_time = t ∧ w1.start_time = now ∧ w1.syslog = w.syslog := by
  obtain ⟨w1, h1, hc, hf, hpath, hst, htime, hsys⟩ := write_record_appends 'S' t now t now 0 0
    { w with stats_file := some { path := path }, fs := fs_truncate path w.fs,
             start_system_time := t, start_time := now } { path := path } []
    (Or.inl rfl) rfl (fs_lookup_truncate path w.fs)
  refine ⟨w1, ?_, ?_, hf, ?_, hst, htime, hsys⟩
  · simpa [rmfd_stats_start, hp] using h1
  · simpa [duration_self] using hc
  · rw [hpath]
    exact hp

/-- Checkpoints whose writes reach the file append their 'P' lines, in call
order. -/
theorem run_tmp_calls_content (calls : List TmpCall) (w : World) (f : FILE)
    (content : List gstring) (hfile : w.stats_file = some f)
    (hc : fs_lookup f.path w.fs = some content)
    (hok : ∀ c ∈ calls, c.fprintf_ok = true ∧ c.fflush_ok = true) :
    ∃ w1, run_tmp_calls calls w = Except.ok w1
      ∧ fs_lookup f.path w1.fs = some (content ++ calls.map (tmp_line w))
      ∧ w1.stats_file = w.stats_file ∧ w1.stats_file_path = w.stats_file_path
      ∧ w1.start_system_time = w.start_system_time ∧ w1.start_time = w.start_time
      ∧ w1.syslog = w.syslog := by
  induction calls generalizing w content with
  | nil => exact ⟨w, rfl, by simpa using hc, rfl, rfl, rfl, rfl, rfl⟩
  | cons c cs ih =>
    have hcok : c.fprintf_ok = true := (hok c (List.mem_cons_self c cs)).1
    have hcfl : c.fflush_ok = true := (hok c (List.mem_cons_self c cs)).2
    obtain ⟨w1, h1, hc1, hf1, hp1, hst1, htime1, hsys1⟩ := write_record_appends 'P'
      w.start_system_time w.start_time c.tmp_system_time c.now c.rx_bytes c.tx_bytes w f
      content (Or.inr (Or.inl rfl)) hfile hc
    obtain ⟨w2, h2, hc2, hf2, hp2, hst2, htime2, hsys2⟩ := ih w1 _ (hf1.trans hfile) hc1
      (fun c' hc' => hok c' (List.mem_cons_of_mem c hc'))
    refine ⟨w2, ?_, ?_, hf2.trans hf1, hp2.trans hp1, hst2.trans hst1, htime2.trans htime1,
      hsys2.trans hsys1⟩
    · simp only [run_tmp_calls, rmfd_stats_tmp, hcok, hcfl, h1]
      exact h2
    · rw [hc2]
      have htl : tmp_line w1 = tmp_line w := by
        funext c'
        simp [tmp_line, hst1, htime1]
      rw [htl]
      simp [tmp_line]

/-- A session started with a timestamp, with the file opened and every write
succeeding: just before the file is removed it holds one 'S' line, the 'P' lines
of the checkpoints in call order, and one 'F' line. -/
theorem session_records_in_order (w : World) (path : gstring)
    (hp : w.stats_file_path = some path) (t0 : GDateTime) (now0 : Int)
    (calls : List TmpCall) (hok : ∀ c ∈ calls, c.fprintf_ok = true ∧ c.fflush_ok = true)
    (t : Option GDateTime) (rx tx : Nat) (now : Int) :
    ∃ w1 w2 w3, rmfd_stats_start (some t0) true now0 true true w = Except.ok w1
      ∧ run_tmp_calls calls w1 = Except.ok w2
      ∧ stop_final_record t rx tx now true true w2 = Except.ok w3
      ∧ fs_lookup path w3.fs = some
          ([record_line 'S' (g_date_time_format_F_T t0) (g_date_time_format_F_T t0) 0 0 0]
            ++ calls.map (fun c => record_line 'P' (g_date_time_format_F_T t0)
                (system_time_str c.tmp_system_time) (duration now0 c.now)
                c.rx_bytes c.tx_bytes)
            ++ [record_line 'F' (g_date_time_format_F_T t0) (system_time_str t)
                (duration now0 now) rx tx]) := by
  obtain ⟨w1, h1, hc1, hf1, hp1, hst1, htime1, -⟩ :=
    start_opened_content (some t0) now0 w path hp
  obtain ⟨w2, h2, hc2, hf2, hp2, hst2, htime2, -⟩ :=
    run_tmp_calls_content calls w1 { path := path } _ hf1 hc1 hok
  obtain ⟨w3, h3, hc3, -⟩ := write_record_appends 'F' w2.start_system_time w2.start_time
    t now rx tx w2 { path := path } _ (Or.inr (Or.inr rfl)) (hf2.trans hf1) hc2
  refine ⟨w1, w2, w3, h1, h2, h3, ?_⟩
  rw [hc3, hst2, hst1, htime2, htime1]
  have htl : ∀ c, tmp_line w1 c = record_line 'P' (g_date_time_format_F_T t0)
      (system_time_str c.tmp_system_time) (duration now0 c.now) c.rx_bytes c.tx_bytes := by
    intro c
    simp [tmp_line, hst1, htime1, system_time_str]
  simp [htl, system_time_str]

/-- Within the `time_t` range the duration expression is the difference of the
two times when the second is the later one, and zero otherwise. -/
theorem duration_eq_max (first_time second_time : Int)
    (h1 : is_time_t first_time) (h2 : is_time_t second_time) :
    (duration first_time second_time : Int) = max 0 (second_time - first_time) := by
  obtain ⟨h1l, h1u⟩ := h1
  obtain ⟨h2l, h2u⟩ := h2
  unfold duration to_gulong
  by_cases h : second_time > first_time
  · have hmod : (second_time - first_time) % 2 ^ 64 = second_time - first_time :=
      Int.emod_eq_of_lt (by omega) (by omega)
    rw [if_pos h, hmod, Int.toNat_of_nonneg (by omega)]
    omega
  · rw [if_neg h]
    simp
    omega

/-! ## The claims -/

set_option maxRecDepth 100000

/-- Claim C1.  Stop is idempotent: from every world and for every two sets of
arguments and of environment readings, the first `rmfd_stats_stop` returns
normally and a second one right after it returns normally with the world
exactly as the first one left it (statics, files on disk, syslog sink and GLib
log): it writes no record and emits no summary line. -/
theorem C1_stop_idempotent (w : World)
    (t t' : Option GDateTime) (rx tx rx' tx' : Nat)
    (now stop_time now' stop_time' : Int) (ok ok' fl fl' : Bool) :
    ∃ w1, rmfd_stats_stop t rx tx now ok fl stop_time w = Except.ok w1
      ∧ rmfd_stats_stop t' rx' tx' now' ok' fl' stop_time' w1 = Except.ok w1 := by
  obtain ⟨w1, h1, hnone⟩ := stop_clears_start_time t rx tx now ok fl stop_time w
  exact ⟨w1, h1, stop_without_start_time _ _ _ _ _ _ _ _ hnone⟩

/-- Claim C2, at the input on which the code departs from it.  After
`rmfd_stats_setup ("/tmp/x")`, a start without a system time (`NULL`) that
opens the file, and a stop, the file is still on disk with its 'S' record, the
stream is still open and the syslog sink is empty: the stop returned at its
first test. -/
theorem C2_start_without_time_is_never_finalized :
    (rmfd_stats_setup (some "/tmp/x".toList) fresh_world
      >>= rmfd_stats_start none true 1000 true true
      >>= rmfd_stats_stop (some ⟨2015, 1, 1, 0, 2, 0⟩) 2000 1000 1120 true true 1120)
    = Except.ok
        { stats_file := some { path := "/tmp/x".toList },
          stats_file_path := some "/tmp/x".toList,
          start_system_time := none,
          start_time := 1000,
          fs := [("/tmp/x".toList, ["S\tN/A\tN/A\t0\t0\t0\n".toList])],
          syslog := [],
          glog := [] } := by
  decide

/-- Claim C3, refuted as stated.  A session started at clock value 1000 is stopped;
the clock reads 1119 when the final record is composed and 1120 when the summary
is: the 'F' record that the stop writes carries the duration 119 and the summary
line of the same stop carries the duration 120. -/
theorem C3_counterexample :
    (rmfd_stats_setup (some "/tmp/x".toList) fresh_world
        >>= rmfd_stats_start (some ⟨2015, 1, 1, 0, 0, 0⟩) true 1000 true true
        >>= stop_final_record (some ⟨2015, 1, 1, 0, 2, 0⟩) 2000 1000 1119 true true).map
      (fun w => fs_lookup "/tmp/x".toList w.fs)
      = Except.ok (some
          ["S\t2015-01-01 00:00:00\t2015-01-01 00:00:00\t0\t0\t0\n".toList,
           "F\t2015-01-01 00:00:00\t2015-01-01 00:02:00\t119\t2000\t1000\n".toList])
    ∧ (rmfd_stats_setup (some "/tmp/x".toList) fresh_world
        >>= rmfd_stats_start (some ⟨2015, 1, 1, 0, 0, 0⟩) true 1000 true true
        >>= rmfd_stats_stop (some ⟨2015, 1, 1, 0, 2, 0⟩) 2000 1000 1119 true true 1120).map
      (fun w => w.syslog)
      = Except.ok [(LOG_INFO, ("Connection stats [From: 2015-01-01 00:00:00] "
          ++ "[To: 2015-01-01 00:02:00] [Duration: 120] [RX: 2000] [TX: 1000]").toList)] := by
  decide

/-- Claim C3, amended.  On a session with a start timestamp, an open stream and a
successful write, `rmfd_stats_stop` appends the 'F' line and one summary line
that are composed from the same two timestamp strings and the same rx and tx
values; the duration of the 'F' line comes from the clock value `now` read for
it, the duration of the summary from the clock value `stop_time` read for it,
both by the same expression, so the two agree whenever the two readings do. -/
theorem C3_summary_matches_final_record (w : World) (t0 : GDateTime) (f : FILE)
    (content : List gstring)
    (hstart : w.start_system_time = some t0) (hfile : w.stats_file = some f)
    (hc : fs_lookup f.path w.fs = some content)
    (t : Option GDateTime) (rx tx : Nat) (now stop_time : Int) :
    ∃ w1 w2, stop_final_record t rx tx now true true w = Except.ok w1
      ∧ fs_lookup f.path w1.fs = some (content ++ [record_line 'F'
          (g_date_time_format_F_T t0) (system_time_str t) (duration w.start_time now) rx tx])
      ∧ rmfd_stats_stop t rx tx now true true stop_time w = Except.ok w2
      ∧ w2.syslog = w.syslog ++ [(LOG_INFO, syslog_format
          (g_date_time_format_F_T t0) (system_time_str t)
          (duration w.start_time stop_time) rx tx)]
      ∧ (stop_time = now → duration w.start_time stop_time = duration w.start_time now) := by
  obtain ⟨w1, h1, hc1, -, -, hst1, htime1, hsys1⟩ := write_record_appends 'F'
    w.start_system_time w.start_time t now rx tx w f content (Or.inr (Or.inr rfl)) hfile hc
  obtain ⟨w1b, h1b, hstop, -⟩ := stop_with_start_time t rx tx now true true stop_time w t0 hstart
  have h1c : stop_final_record t rx tx now true true w = Except.ok w1 := h1
  have hw : w1b = w1 := by
    rw [h1c] at h1b
    exact (Except.ok.inj h1b).symm
  subst hw
  refine ⟨w1b, _, h1c, ?_, hstop, ?_, ?_⟩
  · rw [hc1, hstart]
    rfl
  · rw [stop_unlink_syslog]
    simp only [stop_cleanup, stop_syslog, write_syslog_record, rmfd_syslog, g_debug]
    rw [hsys1, hst1, htime1, hstart]
    rfl
  · intro h
    rw [h]

/-- The instance of C3_summary_matches_final_record on the session opened by a
start at clock value 1000. -/
theorem C3_summary_matches_final_record_witness :
    ∃ w1 w2, stop_final_record none 7 9 1060 true true
        { fresh_world with stats_file := some { path := "/tmp/x".toList },
                           stats_file_path := some "/tmp/x".toList,
                           start_system_time := some ⟨2015, 1, 1, 0, 0, 0⟩,
                           start_time := 1000,
                           fs := [("/tmp/x".toList, [])] } = Except.ok w1
      ∧ fs_lookup "/tmp/x".toList w1.fs = some ([] ++ [record_line 'F'
          (g_date_time_format_F_T ⟨2015, 1, 1, 0, 0, 0⟩) (system_time_str none)
          (duration 1000 1060) 7 9])
      ∧ rmfd_stats_stop none 7 9 1060 true true 1061
        { fresh_world with stats_file := some { path := "/tmp/x".toList },
                           stats_file_path := some "/tmp/x".toList,
                           start_system_time := some ⟨2015, 1, 1, 0, 0, 0⟩,
                           start_time := 1000,
                           fs := [("/tmp/x".toList, [])] } = Except.ok w2
      ∧ w2.syslog = [] ++ [(LOG_INFO, syslog_format
          (g_date_time_format_F_T ⟨2015, 1, 1, 0, 0, 0⟩) (system_time_str none)
          (duration 1000 1061) 7 9)]
      ∧ ((1061 : Int) = 1060 → duration 1000 1061 = duration 1000 1060) :=
  C3_summary_matches_final_record
    { fresh_world with stats_file := some { path := "/tmp/x".toList },
                       stats_file_path := some "/tmp/x".toList,
                       start_system_time := some ⟨2015, 1, 1, 0, 0, 0⟩,
                       start_time := 1000,
                       fs := [("/tmp/x".toList, [])] }
    ⟨2015, 1, 1, 0, 0, 0⟩ { path := "/tmp/x".toList } [] rfl rfl (by decide)
    none 7 9 1060 1061

/-- Claim C4, at the input on which the code departs from it.  After
`rmfd_stats_setup ("/tmp/x")`, a start without a system time (`NULL`) that
opens the file, one checkpoint and a stop, every write having succeeded, the
file is still on disk and holds an 'S' and a 'P' record but no 'F' record. -/
theorem C4_start_without_time_gets_no_final_record :
    (rmfd_stats_setup (some "/tmp/x".toList) fresh_world
        >>= rmfd_stats_start none true 1000 true true
        >>= rmfd_stats_tmp (some ⟨2015, 1, 1, 0, 1, 0⟩) 1000 500 1060 true true
        >>= rmfd_stats_stop (some ⟨2015, 1, 1, 0, 2, 0⟩) 2000 1000 1120 true true 1120).map
      (fun w => fs_lookup "/tmp/x".toList w.fs)
      = Except.ok (some
          ["S\tN/A\tN/A\t0\t0\t0\n".toList,
           "P\tN/A\t2015-01-01 00:01:00\t60\t1000\t500\n".toList]) := by
  decide

/-- Claim C5.  For `time_t` values `first_time` and `second_time`, the duration
computed by the recorder is `max 0 (second_time - first_time)`: the difference
when the second is the later one, zero otherwise.  The record that
`write_record` writes for these two times carries that number as its duration,
and so does the summary line that `rmfd_stats_stop` emits when `first_time` is
the stored start time and `second_time` the clock value read for the summary. -/
theorem C5_duration_is_clamped_difference (first_time second_time : Int)
    (h1 : is_time_t first_time) (h2 : is_time_t second_time)
    (record_type : Char) (fst snd : Option GDateTime) (rx tx : Nat) (w : World) (f : FILE)
    (htag : record_type = 'S' ∨ record_type = 'P' ∨ record_type = 'F')
    (hfile : w.stats_file = some f)
    (t : Option GDateTime) (now : Int) (ok fl : Bool) (ws : World) (t0 : GDateTime)
    (hstart : ws.start_system_time = some t0) (htime : ws.start_time = first_time) :
    (duration first_time second_time : Int) = max 0 (second_time - first_time)
    ∧ (second_time > first_time →
        (duration first_time second_time : Int) = second_time - first_time)
    ∧ (¬ second_time > first_time → duration first_time second_time = 0)
    ∧ write_record record_type fst first_time snd second_time rx tx true true w
        = Except.ok { w with fs := (fs_append f.path
            (record_line record_type (system_time_str fst) (system_time_str snd)
              (max 0 (second_time - first_time)).toNat rx tx) w.fs) }
    ∧ ∃ w1, rmfd_stats_stop t rx tx now ok fl second_time ws = Except.ok w1
        ∧ w1.syslog = ws.syslog ++ [(LOG_INFO, syslog_format (g_date_time_format_F_T t0)
            (system_time_str t) (max 0 (second_time - first_time)).toNat rx tx)] := by
  have hd := duration_eq_max first_time second_time h1 h2
  have hd2 : (max 0 (second_time - first_time)).toNat = duration first_time second_time := by
    rw [← hd]
    simp
  refine ⟨hd, ?_, ?_, ?_, ?_⟩
  · intro h
    rw [hd]
    omega
  · intro h
    have h0 : (duration first_time second_time : Int) = 0 := by
      rw [hd]
      omega
    exact_mod_cast h0
  · rw [hd2]
    exact write_record_open record_type fst first_time snd second_time rx tx w f htag hfile
  · obtain ⟨w1, -, hstop, -, -, hst1, htime1, hsys1⟩ :=
      stop_with_start_time t rx tx now ok fl second_time ws t0 hstart
    refine ⟨_, hstop, ?_⟩
    rw [stop_unlink_syslog, hd2]
    simp only [stop_cleanup, stop_syslog, write_syslog_record, rmfd_syslog, g_debug]
    rw [hsys1, hst1, htime1, hstart, htime]
    rfl

/-- The instance of C5_duration_is_clamped_difference for a clock that went
backwards, from 1060 to 1000: the duration is 0. -/
theorem C5_duration_is_clamped_difference_witness :
    (duration 1060 1000 : Int) = max 0 (1000 - 1060)
    ∧ ((1000 : Int) > 1060 → (duration 1060 1000 : Int) = 1000 - 1060)
    ∧ (¬ (1000 : Int) > 1060 → duration 1060 1000 = 0)
    ∧ write_record 'P' (some ⟨2015, 1, 1, 0, 0, 0⟩) 1060 none 1000 7 9 true true
        { fresh_world with stats_file := some { path := "/tmp/x".toList },
                           fs := [("/tmp/x".toList, [])] }
        = Except.ok
          { ({ fresh_world with stats_file := some { path := "/tmp/x".toList },
                                fs := [("/tmp/x".toList, [])] } : World) with
            fs := (fs_append "/tmp/x".toList
              (record_line 'P' (system_time_str (some ⟨2015, 1, 1, 0, 0, 0⟩))
                (system_time_str none) (max 0 ((1000 : Int) - 1060)).toNat 7 9)
              [("/tmp/x".toList, [])]) }
    ∧ ∃ w1, rmfd_stats_stop none 7 9 1000 true true 1000
          { fresh_world with start_system_time := some ⟨2015, 1, 1, 0, 0, 0⟩,
                             start_time := 1060 } = Except.ok w1
        ∧ w1.syslog = [] ++ [(LOG_INFO, syslog_format
            (g_date_time_format_F_T ⟨2015, 1, 1, 0, 0, 0⟩)
            (system_time_str none) (max 0 ((1000 : Int) - 1060)).toNat 7 9)] :=
  C5_duration_is_clamped_difference 1060 1000 (by decide) (by decide)
    'P' (some ⟨2015, 1, 1, 0, 0, 0⟩) none 7 9
    { fresh_world with stats_file := some { path := "/tmp/x".toList },
                       fs := [("/tmp/x".toList, [])] }
    { path := "/tmp/x".toList } (by decide) rfl
    none 1000 true true
    { fresh_world with start_system_time := some ⟨2015, 1, 1, 0, 0, 0⟩, start_time := 1060 }
    ⟨2015, 1, 1, 0, 0, 0⟩ rfl rfl

/-- Claim C6, at the input on which the code departs from it.  After
`rmfd_stats_setup ("/tmp/x")` a start with a timestamp fails to open the file;
the checkpoint and the stop that follow return normally, but the stop emits
nothing: the syslog sink is still empty, and the only trace of the three calls
is the warning of the failed `fopen`. -/
theorem C6_stop_after_failed_open_is_silent :
    (rmfd_stats_setup (some "/tmp/x".toList) fresh_world
        >>= rmfd_stats_start (some ⟨2015, 1, 1, 0, 0, 0⟩) false 1000 true true
        >>= rmfd_stats_tmp (some ⟨2015, 1, 1, 0, 1, 0⟩) 1000 500 1060 true true
        >>= rmfd_stats_stop (some ⟨2015, 1, 1, 0, 2, 0⟩) 2000 1000 1120 true true 1120)
      = Except.ok
          { stats_file := none,
            stats_file_path := some "/tmp/x".toList,
            start_system_time := none,
            start_time := 0,
            fs := [],
            syslog := [],
            glog := [(GLogLevel.warning, "error: cannot open stats file".toList)] } := by
  decide

/-- Claim C7.  With no stream open, `rmfd_stats_tmp` returns normally and leaves
the whole world as it is, for every timestamp, counters, clock value and write
outcome: no file is created, nothing is written, and the statics, the syslog
sink and the GLib log are unchanged. -/
theorem C7_tmp_without_file_is_noop (w : World) (h : w.stats_file = none)
    (t : Option GDateTime) (rx tx : Nat) (now : Int) (ok fl : Bool) :
    rmfd_stats_tmp t rx tx now ok fl w = Except.ok w :=
  write_record_closed 'P' _ _ _ _ _ _ _ _ w (Or.inr (Or.inl rfl)) h

/-- The instance of C7_tmp_without_file_is_noop before any setup or start. -/
theorem C7_tmp_without_file_is_noop_witness :
    rmfd_stats_tmp (some ⟨2015, 1, 1, 0, 1, 0⟩) 1000 500 1060 true true fresh_world
      = Except.ok fresh_world :=
  C7_tmp_without_file_is_noop fresh_world rfl (some ⟨2015, 1, 1, 0, 1, 0⟩) 1000 500 1060 true
    true

/-- Claim C8, refuted as stated.  The scenario with the timestamps 00:00:00,
00:01:00 and 00:02:00 passed to the three calls, run while the clock of the
process reads 1000 at every call: just before its removal the file holds three
lines whose durations are all 0, and the log line shows a duration of 0, not
the differences of 60 and 120 seconds between the timestamps passed. -/
theorem C8_counterexample :
    (rmfd_stats_setup (some "/tmp/x".toList) fresh_world
        >>= rmfd_stats_start (some ⟨2015, 1, 1, 0, 0, 0⟩) true 1000 true true
        >>= rmfd_stats_tmp (some ⟨2015, 1, 1, 0, 1, 0⟩) 1000 500 1000 true true
        >>= stop_final_record (some ⟨2015, 1, 1, 0, 2, 0⟩) 2000 1000 1000 true true).map
      (fun w => fs_lookup "/tmp/x".toList w.fs)
      = Except.ok (some
          ["S\t2015-01-01 00:00:00\t2015-01-01 00:00:00\t0\t0\t0\n".toList,
           "P\t2015-01-01 00:00:00\t2015-01-01 00:01:00\t0\t1000\t500\n".toList,
           "F\t2015-01-01 00:00:00\t2015-01-01 00:02:00\t0\t2000\t1000\n".toList])
    ∧ (rmfd_stats_setup (some "/tmp/x".toList) fresh_world
        >>= rmfd_stats_start (some ⟨2015, 1, 1, 0, 0, 0⟩) true 1000 true true
        >>= rmfd_stats_tmp (some ⟨2015, 1, 1, 0, 1, 0⟩) 1000 500 1000 true true
        >>= rmfd_stats_stop (some ⟨2015, 1, 1, 0, 2, 0⟩) 2000 1000 1000 true true 1000).map
      (fun w => w.syslog)
      = Except.ok [(LOG_INFO, ("Connection stats [From: 2015-01-01 00:00:00] "
          ++ "[To: 2015-01-01 00:02:00] [Duration: 0] [RX: 2000] [TX: 1000]").toList)] := by
  decide

/-- Claim C8, amended.  On a recorder that is not set up yet, for every three
timestamps `T0`, `T1`, `T2` passed to the calls and every clock value `c0`: if
the clock of the process reads `c0` in the start, `c0 + 60` in the checkpoint
and `c0 + 120` at both readings of the stop, and the file opens and every write
succeeds, then just before its removal the file holds exactly three lines, 'S'
with duration 0 and zero counters, 'P' with duration 60, rx 1000, tx 500, and
'F' with duration 120, rx 2000, tx 1000; the stop adds the one log line with
`[Duration: 120] [RX: 2000] [TX: 1000]`, and the file is gone afterwards.  The
durations are differences of clock readings, not of the timestamps passed. -/
theorem C8_scenario_by_clock (w : World) (hfile : w.stats_file = none)
    (hpath : w.stats_file_path = none) (T0 T1 T2 : GDateTime) (c0 : Int) :
    ∃ w1 w2 w3 w4 w5,
      rmfd_stats_setup (some "/tmp/x".toList) w = Except.ok w1
      ∧ rmfd_stats_start (some T0) true c0 true true w1 = Except.ok w2
      ∧ rmfd_stats_tmp (some T1) 1000 500 (c0 + 60) true true w2 = Except.ok w3
      ∧ stop_final_record (some T2) 2000 1000 (c0 + 120) true true w3 = Except.ok w4
      ∧ fs_lookup "/tmp/x".toList w4.fs = some
          [record_line 'S' (g_date_time_format_F_T T0) (g_date_time_format_F_T T0) 0 0 0,
           record_line 'P' (g_date_time_format_F_T T0) (g_date_time_format_F_T T1) 60 1000 500,
           record_line 'F' (g_date_time_format_F_T T0) (g_date_time_format_F_T T2)
             120 2000 1000]
      ∧ rmfd_stats_stop (some T2) 2000 1000 (c0 + 120) true true (c0 + 120) w3 = Except.ok w5
      ∧ w5.syslog = w.syslog ++ [(LOG_INFO,
          "Connection stats [From: ".toList ++ g_date_time_format_F_T T0
            ++ "] [To: ".toList ++ g_date_time_format_F_T T2
            ++ "] [Duration: 120] [RX: 2000] [TX: 1000]".toList)]
      ∧ fs_lookup "/tmp/x".toList w5.fs = none := by
  have hsetup : rmfd_stats_setup (some "/tmp/x".toList) w
      = Except.ok { w with stats_file_path := some "/tmp/x".toList } := by
    simp [rmfd_stats_setup, hfile, hpath]
  have hd60 : duration c0 (c0 + 60) = 60 := by
    simp [duration, to_gulong]
  have hd120 : duration c0 (c0 + 120) = 120 := by
    simp [duration, to_gulong]
  obtain ⟨w2, w3, w4, h2, h3, h4, hc4⟩ := session_records_in_order
    { w with stats_file_path := some "/tmp/x".toList } "/tmp/x".toList rfl T0 c0
    [{ tmp_system_time := some T1, rx_bytes := 1000, tx_bytes := 500, now := c0 + 60,
       fprintf_ok := true, fflush_ok := true }] (by simp) (some T2) 2000 1000 (c0 + 120)
  obtain ⟨w2b, w3b, w5, h2b, h3b, h5, hgone, -, hsys⟩ := session_with_start_time_is_finalized
    { w with stats_file_path := some "/tmp/x".toList } "/tmp/x".toList rfl T0 c0 true true
    [{ tmp_system_time := some T1, rx_bytes := 1000, tx_bytes := 500, now := c0 + 60,
       fprintf_ok := true, fflush_ok := true }] (some T2) 2000 1000 (c0 + 120) true true
    (c0 + 120)
  have e2 : w2b = w2 := by
    rw [h2] at h2b
    exact (Except.ok.inj h2b).symm
  subst e2
  have e3 : w3b = w3 := by
    rw [h3] at h3b
    exact (Except.ok.inj h3b).symm
  subst e3
  have htmp : rmfd_stats_tmp (some T1) 1000 500 (c0 + 60) true true w2b = Except.ok w3b := by
    simp only [run_tmp_calls] at h3
    cases hr : rmfd_stats_tmp (some T1) 1000 500 (c0 + 60) true true w2b with
    | error e => simp [hr] at h3
    | ok w' =>
      simp [hr] at h3
      rw [h3]
  refine ⟨_, w2b, w3b, w4, w5, hsetup, h2, htmp, h4, ?_, h5, ?_, hgone⟩
  · rw [hc4]
    simp [hd60, hd120, system_time_str]
  · rw [hsys, hd120]
    have h120 : fmt_unsigned 120 = "120".toList := by decide
    have h2000 : fmt_unsigned 2000 = "2000".toList := by decide
    have h1000 : fmt_unsigned 1000 = "1000".toList := by decide
    simp [syslog_format, system_time_str, h120, h2000, h1000]

/-- The instance of C8_scenario_by_clock on the fresh world with the timestamps
00:00:00, 00:01:00 and 00:02:00 and the clock starting at 1000. -/
theorem C8_scenario_by_clock_witness :
    ∃ w1 w2 w3 w4 w5,
      rmfd_stats_setup (some "/tmp/x".toList) fresh_world = Except.ok w1
      ∧ rmfd_stats_start (some ⟨2015, 1, 1, 0, 0, 0⟩) true 1000 true true w1 = Except.ok w2
      ∧ rmfd_stats_tmp (some ⟨2015, 1, 1, 0, 1, 0⟩) 1000 500 (1000 + 60) true true w2 = Except.ok w3
      ∧ stop_final_record (some ⟨2015, 1, 1, 0, 2, 0⟩) 2000 1000 (1000 + 120) true true w3
          = Except.ok w4
      ∧ fs_lookup "/tmp/x".toList w4.fs = some
          [record_line 'S' (g_date_time_format_F_T ⟨2015, 1, 1, 0, 0, 0⟩)
             (g_date_time_format_F_T ⟨2015, 1, 1, 0, 0, 0⟩) 0 0 0,
           record_line 'P' (g_date_time_format_F_T ⟨2015, 1, 1, 0, 0, 0⟩)
             (g_date_time_format_F_T ⟨2015, 1, 1, 0, 1, 0⟩) 60 1000 500,
           record_line 'F' (g_date_time_format_F_T ⟨2015, 1, 1, 0, 0, 0⟩)
             (g_date_time_format_F_T ⟨2015, 1, 1, 0, 2, 0⟩) 120 2000 1000]
      ∧ rmfd_stats_stop (some ⟨2015, 1, 1, 0, 2, 0⟩) 2000 1000 (1000 + 120) true true (1000 + 120) w3
          = Except.ok w5
      ∧ w5.syslog = fresh_world.syslog ++ [(LOG_INFO,
          "Connection stats [From: ".toList ++ g_date_time_format_F_T ⟨2015, 1, 1, 0, 0, 0⟩
            ++ "] [To: ".toList ++ g_date_time_format_F_T ⟨2015, 1, 1, 0, 2, 0⟩
            ++ "] [Duration: 120] [RX: 2000] [TX: 1000]".toList)]
      ∧ fs_lookup "/tmp/x".toList w5.fs = none :=
  C8_scenario_by_clock fresh_world rfl rfl ⟨2015, 1, 1, 0, 0, 0⟩ ⟨2015, 1, 1, 0, 1, 0⟩
    ⟨2015, 1, 1, 0, 2, 0⟩ 1000

/-- Claim C9.  On a recorder with no stream and no path, `rmfd_stats_setup (path)`
returns normally and changes nothing but the stored path (the files on disk, the
stream, the session fields, the syslog sink and the GLib log are as before); a
second `rmfd_stats_setup` right after it, for every two paths, fails its
assertion and aborts. -/
theorem C9_setup_once (w : World) (hfile : w.stats_file = none)
    (hpath : w.stats_file_path = none) (path path' : gstring) :
    rmfd_stats_setup (some path) w = Except.ok { w with stats_file_path := some path }
    ∧ (rmfd_stats_setup (some path) w >>= rmfd_stats_setup (some path'))
        = Except.error Fault.assertion_failed := by
  have h1 : rmfd_stats_setup (some path) w
      = Except.ok { w with stats_file_path := some path } := by
    simp [rmfd_stats_setup, hfile, hpath]
  refine ⟨h1, ?_⟩
  rw [h1]
  show rmfd_stats_setup (some path') { w with stats_file_path := some path } = _
  simp [rmfd_stats_setup, hfile]

/-- The instance of C9_setup_once on the fresh world, with the paths "/tmp/x"
and "/tmp/y". -/
theorem C9_setup_once_witness :
    rmfd_stats_setup (some "/tmp/x".toList) fresh_world
      = Except.ok { fresh_world with stats_file_path := some "/tmp/x".toList }
    ∧ (rmfd_stats_setup (some "/tmp/x".toList) fresh_world
          >>= rmfd_stats_setup (some "/tmp/y".toList))
        = Except.error Fault.assertion_failed :=
  C9_setup_once fresh_world rfl rfl "/tmp/x".toList "/tmp/y".toList

/-- Claim C10.  `rmfd_stats_teardown` is a total step on every world: afterwards
the session-start timestamp, the stream and the configured path are all absent,
and the syslog sink is exactly as it was. -/
theorem C10_teardown_ends_idle (w : World) :
    (rmfd_stats_teardown w).start_system_time = none
    ∧ (rmfd_stats_teardown w).stats_file = none
    ∧ (rmfd_stats_teardown w).stats_file_path = none
    ∧ (rmfd_stats_teardown w).syslog = w.syslog :=
  ⟨rfl, rfl, rfl, rfl⟩

/-! ## Lemmas on the composed line -/

theorem record_format_length (record_type : Char) (first_str second_str : gstring)
    (dur rx tx : Nat) :
    (record_format record_type first_str second_str dur rx tx).length
      = first_str.length + second_str.length + (fmt_unsigned dur).length
        + (fmt_unsigned rx).length + (fmt_unsigned tx).length + 7 := by
  simp [record_format]
  omega

/-- A formatted text of at most 254 characters goes into the line as it is. -/
theorem record_line_untruncated (record_type : Char) (first_str second_str : gstring)
    (dur rx tx : Nat)
    (h : (record_format record_type first_str second_str dur rx tx).length ≤ 254) :
    record_line record_type first_str second_str dur rx tx
      = record_format record_type first_str second_str dur rx tx := by
  simp only [record_line, g_snprintf, MAX_LINE_LENGTH]
  exact List.take_of_length_le h

theorem fmt_unsigned_zero : fmt_unsigned 0 = ['0'] := by
  decide

/-- What a call of `write_record` with one of the three tags does, for every
outcome of the write: the line reaches the file when the stream is open and both
`fprintf` and `fflush` succeed, and the files stay as they are otherwise; the
statics and the syslog sink are never touched, and only a failed `fprintf` leaves
a trace on the GLib log. -/
theorem write_record_effect (record_type : Char) (fst : Option GDateTime) (ft : Int)
    (snd : Option GDateTime) (st : Int) (rx tx : Nat) (ok fl : Bool) (w : World)
    (htag : record_type = 'S' ∨ record_type = 'P' ∨ record_type = 'F') :
    ∃ w1, write_record record_type fst ft snd st rx tx ok fl w = Except.ok w1
      ∧ w1.fs = (match w.stats_file with
          | some f =>
            if ok && fl then
              fs_append f.path (record_line record_type (system_time_str fst)
                (system_time_str snd) (duration ft st) rx tx) w.fs
            else w.fs
          | none => w.fs)
      ∧ w1.stats_file = w.stats_file ∧ w1.stats_file_path = w.stats_file_path
      ∧ w1.start_system_time = w.start_system_time ∧ w1.start_time = w.start_time
      ∧ w1.syslog = w.syslog
      ∧ (ok = true → w1 = { w with fs := w1.fs }) := by
  obtain ⟨sf, sp, ts, st0, fs, sl, gl⟩ := w
  cases sf with
  | none =>
    exact ⟨_, write_record_closed _ _ _ _ _ _ _ _ _ _ htag rfl, rfl, rfl, rfl, rfl, rfl, rfl,
      fun _ => rfl⟩
  | some f =>
    cases ok with
    | true =>
      cases fl with
      | true =>
        exact ⟨_, write_record_open _ _ _ _ _ _ _ _ f htag rfl, rfl, rfl, rfl, rfl, rfl, rfl,
          fun _ => rfl⟩
      | false =>
        refine ⟨⟨some f, sp, ts, st0, fs, sl, gl⟩, ?_, rfl, rfl, rfl, rfl, rfl, rfl,
          fun _ => rfl⟩
        simp [write_record, htag]
    | false =>
      refine ⟨g_warning "error: cannot write to stats file".toList
        ⟨some f, sp, ts, st0, fs, sl, gl⟩, ?_, rfl, rfl, rfl, rfl, rfl, rfl,
        fun h => by simp at h⟩
      simp [write_record, htag]

/-- Claim C11, refuted as stated.  A path is configured, the file holds an old
line, and `rmfd_stats_start` opens it.  When the `fprintf` of the record fails,
the file is left truncated with no line at all and a warning is logged; when the
`fprintf` succeeds and the flush after it fails, the file is left with no line
and nothing is logged.  In both cases the start returns normally. -/
theorem C11_counterexample :
    (rmfd_stats_start (some ⟨2015, 1, 1, 0, 0, 0⟩) true 1000 false true
        { fresh_world with stats_file_path := some "/tmp/x".toList,
                           fs := [("/tmp/x".toList, ["old\n".toList])] }).map
      (fun w => (fs_lookup "/tmp/x".toList w.fs, w.glog))
      = Except.ok (some [],
          [(GLogLevel.warning, "error: cannot write to stats file".toList)])
    ∧ (rmfd_stats_start (some ⟨2015, 1, 1, 0, 0, 0⟩) true 1000 true false
        { fresh_world with stats_file_path := some "/tmp/x".toList,
                           fs := [("/tmp/x".toList, ["old\n".toList])] }).map
      (fun w => (fs_lookup "/tmp/x".toList w.fs, w.glog))
      = Except.ok (some [], []) := by
  decide

/-- Claim C11, amended.  When `rmfd_stats_start (t)` opens the file (a path is
configured and `fopen` succeeds), then whatever the file held before and
whatever the outcome of the write, the start returns normally, the stored
session-start timestamp is `t`, the stored start time is the clock value read,
the stream is open, and the file is truncated: it holds exactly one line when
the write reaches the file (`fprintf` and the flush succeed), namely the 'S'
record composed from the formatting of `t` as first and as second timestamp,
duration 0, rx 0 and tx 0 (spelled out for a timestamp string of at most 19
characters), and no line when it does not. -/
theorem C11_start_writes_one_S_record (w : World) (path : gstring)
    (hp : w.stats_file_path = some path) (t : Option GDateTime) (now : Int)
    (ok fl : Bool) :
    ∃ w1, rmfd_stats_start t true now ok fl w = Except.ok w1
      ∧ fs_lookup path w1.fs
          = some (if ok && fl then
              [record_line 'S' (system_time_str t) (system_time_str t) 0 0 0]
            else [])
      ∧ ((system_time_str t).length ≤ 19 →
          record_line 'S' (system_time_str t) (system_time_str t) 0 0 0
            = ['S', '\t'] ++ system_time_str t ++ ['\t'] ++ system_time_str t
                ++ "\t0\t0\t0\n".toList)
      ∧ w1.start_system_time = t
      ∧ w1.start_time = now
      ∧ w1.stats_file = some { path := path } := by
  obtain ⟨w1, h1, hfs, hf, -, hst, htime, -⟩ := write_record_effect 'S' t now t now 0 0 ok fl
    { w with stats_file := some { path := path }, fs := fs_truncate path w.fs,
             start_system_time := t, start_time := now } (Or.inl rfl)
  refine ⟨w1, ?_, ?_, ?_, hst, htime, hf⟩
  · simpa [rmfd_stats_start, hp] using h1
  · rw [hfs]
    simp only [duration_self]
    by_cases hok : (ok && fl) = true
    · simp only [hok, if_true]
      simpa using fs_lookup_append path _ _ [] (fs_lookup_truncate path w.fs)
    · simp only [hok]
      exact fs_lookup_truncate path w.fs
  · intro hlen
    rw [record_line_untruncated]
    · simp [record_format, fmt_unsigned_zero]
    · rw [record_format_length, fmt_unsigned_zero]
      simp
      omega

/-- The instance of C11_start_writes_one_S_record on a world whose file at
"/tmp/x" holds an old line, with the write reaching the file. -/
theorem C11_start_writes_one_S_record_witness :
    ∃ w1, rmfd_stats_start (some ⟨2015, 1, 1, 0, 0, 0⟩) true 1000 true true
        { fresh_world with stats_file_path := some "/tmp/x".toList,
                           fs := [("/tmp/x".toList, ["old\n".toList])] } = Except.ok w1
      ∧ fs_lookup "/tmp/x".toList w1.fs
          = some (if true && true then
              [record_line 'S' (system_time_str (some ⟨2015, 1, 1, 0, 0, 0⟩))
                (system_time_str (some ⟨2015, 1, 1, 0, 0, 0⟩)) 0 0 0]
            else [])
      ∧ ((system_time_str (some ⟨2015, 1, 1, 0, 0, 0⟩)).length ≤ 19 →
          record_line 'S' (system_time_str (some ⟨2015, 1, 1, 0, 0, 0⟩))
              (system_time_str (some ⟨2015, 1, 1, 0, 0, 0⟩)) 0 0 0
            = ['S', '\t'] ++ system_time_str (some ⟨2015, 1, 1, 0, 0, 0⟩) ++ ['\t']
                ++ system_time_str (some ⟨2015, 1, 1, 0, 0, 0⟩) ++ "\t0\t0\t0\n".toList)
      ∧ w1.start_system_time = some ⟨2015, 1, 1, 0, 0, 0⟩
      ∧ w1.start_time = 1000
      ∧ w1.stats_file = some { path := "/tmp/x".toList } :=
  C11_start_writes_one_S_record
    { fresh_world with stats_file_path := some "/tmp/x".toList,
                       fs := [("/tmp/x".toList, ["old\n".toList])] }
    "/tmp/x".toList rfl (some ⟨2015, 1, 1, 0, 0, 0⟩) 1000 true true

/-- Claim C12, refuted as stated.  On the session in progress, with the stream
open, a checkpoint whose `fprintf` fails appends nothing (the file still holds
only its 'S' record) and logs a warning; a checkpoint whose `fprintf` succeeds
and whose flush fails leaves the whole world as it was. -/
theorem C12_counterexample :
    (rmfd_stats_tmp (some ⟨2015, 1, 1, 0, 1, 0⟩) 1000 500 1060 false true session_world).map
      (fun w => (fs_lookup "/tmp/x".toList w.fs, w.glog))
      = Except.ok
          (some ["S\t2015-01-01 00:00:00\t2015-01-01 00:00:00\t0\t0\t0\n".toList],
           [(GLogLevel.warning, "error: cannot write to stats file".toList)])
    ∧ rmfd_stats_tmp (some ⟨2015, 1, 1, 0, 1, 0⟩) 1000 500 1060 true false session_world
      = Except.ok session_world := by
  decide

/-- Claim C12, amended.  On a world with the stream open on an existing file, for
every `(t, rx, tx)`, clock value and outcome of the write, `rmfd_stats_tmp`
returns normally, leaves the lines the file held in front, sends nothing to the
syslog sink and leaves the statics (session-start timestamp, start time, stream,
path) as they are.  When the write reaches the file (`fprintf` and the flush
succeed) it appends exactly one line, the 'P' record composed from the stored
session-start timestamp as first timestamp, `t` as second timestamp and the
counters `rx` and `tx`; when it does not, the file is unchanged.  Unless
`fprintf` fails nothing but the file changes. -/
theorem C12_tmp_appends_one_P_record (w : World) (f : FILE) (content : List gstring)
    (hfile : w.stats_file = some f) (hc : fs_lookup f.path w.fs = some content)
    (t : Option GDateTime) (rx tx : Nat) (now : Int) (ok fl : Bool) :
    ∃ w1, rmfd_stats_tmp t rx tx now ok fl w = Except.ok w1
      ∧ fs_lookup f.path w1.fs
          = some (if ok && fl then
              content ++ [record_line 'P' (system_time_str w.start_system_time)
                (system_time_str t) (duration w.start_time now) rx tx]
            else content)
      ∧ record_tag (record_line 'P' (system_time_str w.start_system_time)
          (system_time_str t) (duration w.start_time now) rx tx) = some 'P'
      ∧ w1.syslog = w.syslog
      ∧ w1.start_system_time = w.start_system_time
      ∧ w1.start_time = w.start_time
      ∧ w1.stats_file = w.stats_file
      ∧ w1.stats_file_path = w.stats_file_path
      ∧ (ok = true → w1 = { w with fs := w1.fs }) := by
  obtain ⟨w1, h1, hfs, hf, hp, hst, htime, hsys, hrest⟩ := write_record_effect 'P'
    w.start_system_time w.start_time t now rx tx ok fl w (Or.inr (Or.inl rfl))
  refine ⟨w1, h1, ?_, record_tag_record_line _ _ _ _ _ _, hsys, hst, htime, hf, hp, hrest⟩
  rw [hfs, hfile]
  by_cases hok : (ok && fl) = true
  · simp only [hok, if_true]
    exact fs_lookup_append _ _ _ _ hc
  · simp only [hok]
    exact hc

/-- The instance of C12_tmp_appends_one_P_record on the session in progress, with
the write reaching the file. -/
theorem C12_tmp_appends_one_P_record_witness :
    ∃ w1, rmfd_stats_tmp (some ⟨2015, 1, 1, 0, 1, 0⟩) 1000 500 1060 true true session_world
        = Except.ok w1
      ∧ fs_lookup "/tmp/x".toList w1.fs
          = some (if true && true then
              ["S\t2015-01-01 00:00:00\t2015-01-01 00:00:00\t0\t0\t0\n".toList]
                ++ [record_line 'P' (system_time_str session_world.start_system_time)
                      (system_time_str (some ⟨2015, 1, 1, 0, 1, 0⟩))
                      (duration session_world.start_time 1060) 1000 500]
            else ["S\t2015-01-01 00:00:00\t2015-01-01 00:00:00\t0\t0\t0\n".toList])
      ∧ record_tag (record_line 'P' (system_time_str session_world.start_system_time)
          (system_time_str (some ⟨2015, 1, 1, 0, 1, 0⟩))
          (duration session_world.start_time 1060) 1000 500) = some 'P'
      ∧ w1.syslog = session_world.syslog
      ∧ w1.start_system_time = session_world.start_system_time
      ∧ w1.start_time = session_world.start_time
      ∧ w1.stats_file = session_world.stats_file
      ∧ w1.stats_file_path = session_world.stats_file_path
      ∧ (true = true → w1 = { session_world with fs := w1.fs }) :=
  C12_tmp_appends_one_P_record session_world { path := "/tmp/x".toList }
    ["S\t2015-01-01 00:00:00\t2015-01-01 00:00:00\t0\t0\t0\n".toList] rfl (by decide)
    (some ⟨2015, 1, 1, 0, 1, 0⟩) 1000 500 1060 true true

/-! ## Lemmas on the characters and the length of a line -/

theorem digitChar_plain (m : Nat) (h : m < 10) :
    Nat.digitChar m ≠ '\t' ∧ Nat.digitChar m ≠ '\n' := by
  interval_cases m <;> decide

theorem toDigitsCore_plain (fuel n : Nat) (acc : List Char)
    (hacc : ∀ c ∈ acc, c ≠ '\t' ∧ c ≠ '\n') :
    ∀ c ∈ Nat.toDigitsCore 10 fuel n acc, c ≠ '\t' ∧ c ≠ '\n' := by
  induction fuel generalizing n acc with
  | zero => simpa [Nat.toDigitsCore] using hacc
  | succ fuel ih =>
    have hcons : ∀ c ∈ Nat.digitChar (n % 10) :: acc, c ≠ '\t' ∧ c ≠ '\n' := by
      intro c hc
      rcases List.mem_cons.mp hc with h | h
      · rw [h]
        exact digitChar_plain _ (Nat.mod_lt _ (by decide))
      · exact hacc c h
    simp only [Nat.toDigitsCore]
    split_ifs
    · exact hcons
    · exact ih _ _ hcons

/-- A decimal rendering holds neither a tab nor a newline. -/
theorem fmt_unsigned_plain (n : Nat) : ∀ c ∈ fmt_unsigned n, c ≠ '\t' ∧ c ≠ '\n' :=
  toDigitsCore_plain (n + 1) n [] (by simp)

/-- A 64-bit value has at most 20 decimal digits. -/
theorem fmt_unsigned_length_le (n : Nat) (h : n < 2 ^ 64) : (fmt_unsigned n).length ≤ 20 :=
  Nat.toDigitsCore_length 10 (by decide) (n + 1) n 20 (by omega) (by decide)

theorem fmt_02_plain (n : Nat) : ∀ c ∈ fmt_02 n, c ≠ '\t' ∧ c ≠ '\n' := by
  intro c hc
  unfold fmt_02 at hc
  split_ifs at hc
  · rcases List.mem_cons.mp hc with h | h
    · rw [h]
      decide
    · exact fmt_unsigned_plain n c h
  · exact fmt_unsigned_plain n c hc

/-- A formatted timestamp, or "N/A", holds neither a tab nor a newline. -/
theorem system_time_str_plain (t : Option GDateTime) :
    ∀ c ∈ system_time_str t, c ≠ '\t' ∧ c ≠ '\n' := by
  intro c hc
  cases t with
  | none =>
    simp [system_time_str] at hc
    rcases hc with h | h | h <;> rw [h] <;> decide
  | some d =>
    simp only [system_time_str, g_date_time_format_F_T, List.mem_append,
      List.mem_singleton] at hc
    rcases hc with ((((((((((h | h) | h) | h) | h) | h) | h) | h) | h) | h) | h)
    · exact fmt_unsigned_plain _ c h
    · rw [h]; decide
    · exact fmt_02_plain _ c h
    · rw [h]; decide
    · exact fmt_02_plain _ c h
    · rw [h]; decide
    · exact fmt_02_plain _ c h
    · rw [h]; decide
    · exact fmt_02_plain _ c h
    · rw [h]; decide
    · exact fmt_02_plain _ c h

/-- The converted duration fits an unsigned 64-bit value. -/
theorem duration_lt (first_time second_time : Int) : duration first_time second_time < 2 ^ 64 := by
  unfold duration to_gulong
  have h1 : (0 : Int) ≤ (if second_time > first_time then second_time - first_time else 0)
      % 2 ^ 64 := Int.emod_nonneg _ (by norm_num)
  have h2 : (if second_time > first_time then second_time - first_time else 0) % 2 ^ 64
      < (2 : Int) ^ 64 := Int.emod_lt_of_pos _ (by norm_num)
  omega

/-- The formatted text is the six fields joined by tabs, and a newline. -/
theorem record_format_eq_intercalate (record_type : Char) (first_str second_str : gstring)
    (dur rx tx : Nat) :
    record_format record_type first_str second_str dur rx tx
      = ['\t'].intercalate (record_fields record_type first_str second_str dur rx tx)
          ++ ['\n'] := by
  simp [record_format, record_fields, List.intercalate, List.intersperse]

/-- Claim C13.  For a record type among 'S', 'P', 'F', two timestamps each
rendered as a 19-character string or as "N/A", and a duration, an rx and a tx
value below 2^64, the line that `write_record` composes is the formatted text
itself, not cut by the cap: it is the six fields type, first timestamp, second
timestamp, duration, rx, tx joined by tabs (splitting at the tabs gives back
exactly these six), followed by a newline, and it is at most 255 characters
long.  The duration that `write_record` computes is always below 2^64, and the
line it appends to the file is this one. -/
theorem C13_line_is_never_truncated (record_type : Char) (fst snd : Option GDateTime)
    (dur rx tx : Nat)
    (htag : record_type = 'S' ∨ record_type = 'P' ∨ record_type = 'F')
    (hfst : system_time_str fst = "N/A".toList ∨ (system_time_str fst).length = 19)
    (hsnd : system_time_str snd = "N/A".toList ∨ (system_time_str snd).length = 19)
    (hdur : dur < 2 ^ 64) (hrx : rx < 2 ^ 64) (htx : tx < 2 ^ 64) :
    record_line record_type (system_time_str fst) (system_time_str snd) dur rx tx
      = record_format record_type (system_time_str fst) (system_time_str snd) dur rx tx
    ∧ record_line record_type (system_time_str fst) (system_time_str snd) dur rx tx
      = ['\t'].intercalate
          (record_fields record_type (system_time_str fst) (system_time_str snd) dur rx tx)
        ++ ['\n']
    ∧ (['\t'].intercalate
          (record_fields record_type (system_time_str fst) (system_time_str snd) dur rx tx)
        ).splitOn '\t'
      = [[record_type], system_time_str fst, system_time_str snd, fmt_unsigned dur,
          fmt_unsigned rx, fmt_unsigned tx]
    ∧ (record_line record_type (system_time_str fst) (system_time_str snd) dur rx tx).getLast?
      = some '\n'
    ∧ (record_line record_type (system_time_str fst) (system_time_str snd) dur rx tx).length
      ≤ 255
    ∧ (∀ (ft st : Int) (w : World) (f : FILE), w.stats_file = some f →
        duration ft st < 2 ^ 64
        ∧ write_record record_type fst ft snd st rx tx true true w
          = Except.ok { w with fs := (fs_append f.path
              (record_line record_type (system_time_str fst) (system_time_str snd)
                (duration ft st) rx tx) w.fs) }) := by
  have hl1 : (system_time_str fst).length ≤ 19 := by
    rcases hfst with h | h
    · rw [h]
      decide
    · omega
  have hl2 : (system_time_str snd).length ≤ 19 := by
    rcases hsnd with h | h
    · rw [h]
      decide
    · omega
  have hd := fmt_unsigned_length_le dur hdur
  have hr := fmt_unsigned_length_le rx hrx
  have ht := fmt_unsigned_length_le tx htx
  have hflen : (record_format record_type (system_time_str fst) (system_time_str snd)
      dur rx tx).length ≤ 105 := by
    rw [record_format_length]
    omega
  have hline := record_line_untruncated record_type (system_time_str fst)
    (system_time_str snd) dur rx tx (by omega)
  have hnotab : ∀ l ∈ record_fields record_type (system_time_str fst) (system_time_str snd)
      dur rx tx, '\t' ∉ l := by
    intro l hl
    simp only [record_fields, List.mem_cons, List.mem_singleton, List.not_mem_nil,
      or_false] at hl
    rcases hl with h | h | h | h | h | h
    · rw [h]
      rcases htag with h' | h' | h' <;> rw [h'] <;> decide
    · rw [h]
      exact fun hc => (system_time_str_plain fst _ hc).1 rfl
    · rw [h]
      exact fun hc => (system_time_str_plain snd _ hc).1 rfl
    · rw [h]
      exact fun hc => (fmt_unsigned_plain dur _ hc).1 rfl
    · rw [h]
      exact fun hc => (fmt_unsigned_plain rx _ hc).1 rfl
    · rw [h]
      exact fun hc => (fmt_unsigned_plain tx _ hc).1 rfl
  refine ⟨hline, ?_, ?_, ?_, ?_, ?_⟩
  · rw [hline]
    exact record_format_eq_intercalate _ _ _ _ _ _
  · exact List.splitOn_intercalate _ '\t' hnotab (by simp [record_fields])
  · rw [hline, record_format_eq_intercalate]
    simp
  · rw [hline]
    omega
  · intro ft st w f hfile
    exact ⟨duration_lt ft st, write_record_open record_type fst ft snd st rx tx w f htag hfile⟩

/-- The instance of C13_line_is_never_truncated for a 'P' record with a formatted
first timestamp, no second timestamp, and the largest 64-bit duration and
counters. -/
theorem C13_line_is_never_truncated_witness :
    record_line 'P' (system_time_str (some ⟨2015, 1, 1, 0, 0, 0⟩)) (system_time_str none)
        18446744073709551615 18446744073709551615 18446744073709551615
      = record_format 'P' (system_time_str (some ⟨2015, 1, 1, 0, 0, 0⟩)) (system_time_str none)
        18446744073709551615 18446744073709551615 18446744073709551615
    ∧ record_line 'P' (system_time_str (some ⟨2015, 1, 1, 0, 0, 0⟩)) (system_time_str none)
        18446744073709551615 18446744073709551615 18446744073709551615
      = ['\t'].intercalate
          (record_fields 'P' (system_time_str (some ⟨2015, 1, 1, 0, 0, 0⟩))
            (system_time_str none)
            18446744073709551615 18446744073709551615 18446744073709551615)
        ++ ['\n']
    ∧ (['\t'].intercalate
          (record_fields 'P' (system_time_str (some ⟨2015, 1, 1, 0, 0, 0⟩))
            (system_time_str none)
            18446744073709551615 18446744073709551615 18446744073709551615)
        ).splitOn '\t'
      = [['P'], system_time_str (some ⟨2015, 1, 1, 0, 0, 0⟩), system_time_str none,
          fmt_unsigned 18446744073709551615, fmt_unsigned 18446744073709551615,
          fmt_unsigned 18446744073709551615]
    ∧ (record_line 'P' (system_time_str (some ⟨2015, 1, 1, 0, 0, 0⟩)) (system_time_str none)
        18446744073709551615 18446744073709551615 18446744073709551615).getLast?
      = some '\n'
    ∧ (record_line 'P' (system_time_str (some ⟨2015, 1, 1, 0, 0, 0⟩)) (system_time_str none)
        18446744073709551615 18446744073709551615 18446744073709551615).length
      ≤ 255
    ∧ (∀ (ft st : Int) (w : World) (f : FILE), w.stats_file = some f →
        duration ft st < 2 ^ 64
        ∧ write_record 'P' (some ⟨2015, 1, 1, 0, 0, 0⟩) ft none st
            18446744073709551615 18446744073709551615 true true w
          = Except.ok { w with fs := (fs_append f.path
              (record_line 'P' (system_time_str (some ⟨2015, 1, 1, 0, 0, 0⟩))
                (system_time_str none) (duration ft st)
                18446744073709551615 18446744073709551615) w.fs) }) :=
  C13_line_is_never_truncated 'P' (some ⟨2015, 1, 1, 0, 0, 0⟩) none
    18446744073709551615 18446744073709551615 18446744073709551615
    (by decide) (Or.inr (by decide)) (Or.inl rfl) (by decide) (by decide) (by decide)

/-! ## Lemmas on series of calls -/

/-- A regular call keeps the pairing of stream and session-start timestamp. -/
theorem run_call_keeps_pairing (c : Call) (w w1 : World) (hinv : handle_iff_start_time w)
    (hreg : regular_call c w = true) (hrun : run_call c w = Except.ok w1) :
    handle_iff_start_time w1 := by
  unfold handle_iff_start_time at hinv ⊢
  cases c with
  | setup path =>
    simp only [run_call, rmfd_stats_setup] at hrun
    split_ifs at hrun
    rw [← Except.ok.inj hrun]
    exact hinv
  | start system_time fopen_ok now fprintf_ok fflush_ok =>
    cases hopen : (if fopen_ok then w.stats_file_path else none) with
    | none =>
      have hnone : w.start_system_time.isNone = true := by
        cases fopen_ok with
        | false => simpa [regular_call] using hreg
        | true =>
          have hp : w.stats_file_path = none := by simpa using hopen
          simpa [regular_call, hp] using hreg
      simp only [run_call, rmfd_stats_start, hopen] at hrun
      rw [← Except.ok.inj hrun]
      cases hts : w.start_system_time with
      | none => simp [g_warning, hts]
      | some t0 => simp [hts] at hnone
    | some path =>
      have hok : fopen_ok = true := by
        cases fopen_ok with
        | false => simp at hopen
        | true => rfl
      have hp : w.stats_file_path = some path := by simpa [hok] using hopen
      have hsome : system_time.isSome = true := by
        simpa [regular_call, hok, hp] using hreg
      obtain ⟨w2, h2, hf, -, hst, -⟩ := start_opened system_time now fprintf_ok fflush_ok w path hp
      have hrun2 : rmfd_stats_start system_time true now fprintf_ok fflush_ok w = Except.ok w1 := by
        simpa [run_call, hok] using hrun
      rw [h2] at hrun2
      rw [← Except.ok.inj hrun2, hf, hst]
      simp [hsome]
  | tmp tmp_system_time rx_bytes tx_bytes now fprintf_ok fflush_ok =>
    obtain ⟨w2, h2, hf, -, hst, -⟩ := write_record_frame 'P' w.start_system_time w.start_time
      tmp_system_time now rx_bytes tx_bytes fprintf_ok fflush_ok w (Or.inr (Or.inl rfl))
    have hrun2 : write_record 'P' w.start_system_time w.start_time tmp_system_time now
        rx_bytes tx_bytes fprintf_ok fflush_ok w = Except.ok w1 := hrun
    rw [h2] at hrun2
    rw [← Except.ok.inj hrun2, hf, hst]
    exact hinv
  | stop stop_system_time rx_bytes tx_bytes now fprintf_ok fflush_ok stop_time =>
    have hrun2 : rmfd_stats_stop stop_system_time rx_bytes tx_bytes now fprintf_ok fflush_ok
        stop_time w = Except.ok w1 := hrun
    cases hts : w.start_system_time with
    | none =>
      rw [stop_without_start_time _ _ _ _ _ _ _ _ hts] at hrun2
      rw [← Except.ok.inj hrun2]
      exact hinv
    | some t0 =>
      obtain ⟨w2, -, h2, -⟩ := stop_with_start_time stop_system_time rx_bytes tx_bytes now
        fprintf_ok fflush_ok stop_time w t0 hts
      rw [h2] at hrun2
      rw [← Except.ok.inj hrun2, stop_unlink_stats_file]
      have hnone : (stop_unlink (stop_cleanup (stop_syslog stop_system_time rx_bytes tx_bytes
          stop_time w2))).start_system_time = none := by
        simp only [stop_unlink, g_debug]
        split <;> rfl
      rw [hnone]
      simp [stop_cleanup]
  | teardown =>
    simp only [run_call] at hrun
    rw [← Except.ok.inj hrun]
    simp [rmfd_stats_teardown]

/-- A series of regular calls keeps the pairing of stream and session-start
timestamp. -/
theorem run_calls_keeps_pairing (calls : List Call) (w w1 : World)
    (hinv : handle_iff_start_time w) (hreg : regular_calls calls w = true)
    (hrun : run_calls calls w = Except.ok w1) : handle_iff_start_time w1 := by
  induction calls generalizing w with
  | nil =>
    simp only [run_calls] at hrun
    rw [← Except.ok.inj hrun]
    exact hinv
  | cons c cs ih =>
    simp only [run_calls] at hrun
    simp only [regular_calls, Bool.and_eq_true] at hreg
    obtain ⟨hc, hrest⟩ := hreg
    cases hstep : run_call c w with
    | error e => simp [hstep] at hrun
    | ok w2 =>
      simp only [hstep] at hrun hrest
      exact ih w2 (run_call_keeps_pairing c w w2 hinv hc hstep) hrest hrun

/-- Claim C14, refuted as stated.  Two states reached from the fresh world in which
the stream and the session-start timestamp are not paired: after a setup, a start
that opens the file and a second start whose `fopen` fails, the timestamp of the
first start is stored and there is no stream; after a setup and a start without
system time that opens the file, there is a stream and no timestamp. -/
theorem C14_counterexample :
    (run_calls [Call.setup (some "/tmp/x".toList),
                Call.start (some ⟨2015, 1, 1, 0, 0, 0⟩) true 1000 true true,
                Call.start (some ⟨2015, 1, 1, 0, 5, 0⟩) false 1300 true true] fresh_world).map
      (fun w => (w.stats_file, w.start_system_time))
      = Except.ok (none, some ⟨2015, 1, 1, 0, 0, 0⟩)
    ∧ (run_calls [Call.setup (some "/tmp/x".toList),
                  Call.start none true 1000 true true] fresh_world).map
      (fun w => (w.stats_file, w.start_system_time))
      = Except.ok (some { path := "/tmp/x".toList }, none) := by
  decide

/-- Claim C14, amended.  Take any series of setup, start, checkpoint, stop and
teardown calls, with `fopen` succeeding or failing, run from initial statics, in
which every start that opens the file is given a system time and every start
that fails to open the file is made while no session-start timestamp is stored.
In the state it reaches the stream is present if and only if the session-start
timestamp is. -/
theorem C14_handle_iff_start_time (w0 : World) (h0 : is_initial w0) (calls : List Call)
    (hreg : regular_calls calls w0 = true) (w : World)
    (hrun : run_calls calls w0 = Except.ok w) :
    w.stats_file.isSome = true ↔ w.start_system_time.isSome = true := by
  have hinv0 : handle_iff_start_time w0 := by
    obtain ⟨hf, -, hst, -⟩ := h0
    simp [handle_iff_start_time, hf, hst]
  exact run_calls_keeps_pairing calls w0 w hinv0 hreg hrun

/-- The instance of C14_handle_iff_start_time on a setup, a start that opens the
file and a checkpoint, from the fresh world. -/
theorem C14_handle_iff_start_time_witness :
    ({ stats_file := some { path := "/tmp/x".toList },
       stats_file_path := some "/tmp/x".toList,
       start_system_time := some ⟨2015, 1, 1, 0, 0, 0⟩,
       start_time := 1000,
       fs := [("/tmp/x".toList,
               ["S\t2015-01-01 00:00:00\t2015-01-01 00:00:00\t0\t0\t0\n".toList,
                "P\t2015-01-01 00:00:00\t2015-01-01 00:01:00\t60\t1000\t500\n".toList])],
       syslog := [],
       glog := [] } : World).stats_file.isSome = true
    ↔ ({ stats_file := some { path := "/tmp/x".toList },
         stats_file_path := some "/tmp/x".toList,
         start_system_time := some ⟨2015, 1, 1, 0, 0, 0⟩,
         start_time := 1000,
         fs := [("/tmp/x".toList,
                 ["S\t2015-01-01 00:00:00\t2015-01-01 00:00:00\t0\t0\t0\n".toList,
                  "P\t2015-01-01 00:00:00\t2015-01-01 00:01:00\t60\t1000\t500\n".toList])],
         syslog := [],
         glog := [] } : World).start_system_time.isSome = true :=
  C14_handle_iff_start_time fresh_world (by decide)
    [Call.setup (some "/tmp/x".toList),
     Call.start (some ⟨2015, 1, 1, 0, 0, 0⟩) true 1000 true true,
     Call.tmp (some ⟨2015, 1, 1, 0, 1, 0⟩) 1000 500 1060 true true]
    (by decide) _ (by decide)

/-! ## The working file of a session -/

theorem fs_lookup_append_isSome (path other : gstring) (text : gstring) (fs : FileStore) :
    (fs_lookup path (fs_append other text fs)).isSome = (fs_lookup path fs).isSome := by
  induction fs with
  | nil => simp [fs_append]
  | cons e rest ih =>
    obtain ⟨p, c⟩ := e
    by_cases h1 : p = other
    · subst h1
      by_cases h2 : p = path
      · subst h2
        simp [fs_append, fs_lookup]
      · simp [fs_append, fs_lookup, h2]
    · by_cases h2 : p = path
      · subst h2
        simp [fs_append, fs_lookup, h1]
      · simp [fs_append, fs_lookup, h1, h2, ih]

/-- A call of `write_record` neither creates nor removes a file. -/
theorem write_record_keeps_files (record_type : Char) (fst : Option GDateTime) (ft : Int)
    (snd : Option GDateTime) (st : Int) (rx tx : Nat) (ok fl : Bool) (w w1 : World)
    (h : write_record record_type fst ft snd st rx tx ok fl w = Except.ok w1)
    (path : gstring) :
    (fs_lookup path w1.fs).isSome = (fs_lookup path w.fs).isSome := by
  by_cases htag : record_type = 'S' ∨ record_type = 'P' ∨ record_type = 'F'
  · obtain ⟨w2, h2, hfs, -⟩ := write_record_effect record_type fst ft snd st rx tx ok fl w htag
    rw [h] at h2
    rw [Except.ok.inj h2, hfs]
    cases w.stats_file with
    | none => rfl
    | some f =>
      by_cases hok : (ok && fl) = true
      · simp only [hok, if_true]
        exact fs_lookup_append_isSome _ _ _ _
      · simp only [hok]
        rfl
  · simp [write_record, htag] at h

/-- A start that opens the file, for every outcome of the write: the file is on
disk afterwards, the stream is open on the path and the path is as before. -/
theorem start_opened_file (t : Option GDateTime) (now : Int) (ok fl : Bool) (w : World)
    (path : gstring) (hp : w.stats_file_path = some path) :
    ∃ w1, rmfd_stats_start t true now ok fl w = Except.ok w1
      ∧ (fs_lookup path w1.fs).isSome = true
      ∧ w1.stats_file = some { path := path } ∧ w1.stats_file_path = some path
      ∧ w1.start_system_time = t := by
  obtain ⟨w1, h1, hf, hpath, hst, -⟩ := start_opened t now ok fl w path hp
  refine ⟨w1, h1, ?_, hf, hpath, hst⟩
  have h2 : write_record 'S' t now t now 0 0 ok fl
      { w with stats_file := some { path := path }, fs := fs_truncate path w.fs,
               start_system_time := t, start_time := now } = Except.ok w1 := by
    simpa [rmfd_stats_start, hp] using h1
  rw [write_record_keeps_files _ _ _ _ _ _ _ _ _ _ w1 h2 path]
  simp [fs_lookup_truncate]

/-- Every call keeps the stream on the configured path and keeps the file of a
session with a start timestamp on disk. -/
theorem run_call_keeps_session_file (c : Call) (w w1 : World)
    (hs : stream_on_path w) (hf : session_has_file w)
    (hrun : run_call c w = Except.ok w1) :
    stream_on_path w1 ∧ session_has_file w1 := by
  unfold stream_on_path at hs
  unfold session_has_file at hf
  unfold stream_on_path session_has_file
  cases c with
  | setup path =>
    simp only [run_call, rmfd_stats_setup] at hrun
    split_ifs at hrun with h1 h2
    have hfile : w.stats_file = none := by simpa using h1
    have hpath : w.stats_file_path = none := by simpa using h2
    have hts : w.start_system_time = none := by
      rcases hf with h | h
      · exact h
      · simp [hpath] at h
    rw [← Except.ok.inj hrun]
    exact ⟨Or.inl hfile, Or.inl hts⟩
  | start system_time fopen_ok now fprintf_ok fflush_ok =>
    cases hopen : (if fopen_ok then w.stats_file_path else none) with
    | none =>
      simp only [run_call, rmfd_stats_start, hopen] at hrun
      rw [← Except.ok.inj hrun]
      exact ⟨Or.inl rfl, hf⟩
    | some path =>
      have hok : fopen_ok = true := by
        cases fopen_ok with
        | false => simp at hopen
        | true => rfl
      have hp : w.stats_file_path = some path := by simpa [hok] using hopen
      obtain ⟨w2, h2, hc, hfl, hp2, -⟩ :=
        start_opened_file system_time now fprintf_ok fflush_ok w path hp
      have hrun2 : rmfd_stats_start system_time true now fprintf_ok fflush_ok w
          = Except.ok w1 := by
        simpa [run_call, hok] using hrun
      rw [h2] at hrun2
      rw [← Except.ok.inj hrun2]
      refine ⟨Or.inr ?_, Or.inr ?_⟩
      · rw [hfl, hp2]
        rfl
      · rw [hp2]
        simpa using hc
  | tmp tmp_system_time rx_bytes tx_bytes now fprintf_ok fflush_ok =>
    have hrun2 : write_record 'P' w.start_system_time w.start_time tmp_system_time now
        rx_bytes tx_bytes fprintf_ok fflush_ok w = Except.ok w1 := hrun
    obtain ⟨w2, h2, -, hfl, hp, hst, -⟩ := write_record_effect 'P' w.start_system_time
      w.start_time tmp_system_time now rx_bytes tx_bytes fprintf_ok fflush_ok w
      (Or.inr (Or.inl rfl))
    have hkeep := write_record_keeps_files _ _ _ _ _ _ _ _ _ w w1 hrun2
    rw [hrun2] at h2
    have e : w1 = w2 := Except.ok.inj h2
    subst e
    rw [hfl, hp, hst]
    refine ⟨hs, ?_⟩
    rcases hf with h | h
    · exact Or.inl h
    · right
      cases hpath : w.stats_file_path with
      | none => simp [hpath] at h
      | some path =>
        simp only [hpath, Option.some_bind] at h ⊢
        rw [hkeep path]
        exact h
  | stop stop_system_time rx_bytes tx_bytes now fprintf_ok fflush_ok stop_time =>
    have hrun2 : rmfd_stats_stop stop_system_time rx_bytes tx_bytes now fprintf_ok fflush_ok
        stop_time w = Except.ok w1 := hrun
    cases hts : w.start_system_time with
    | none =>
      rw [stop_without_start_time _ _ _ _ _ _ _ _ hts] at hrun2
      rw [← Except.ok.inj hrun2]
      exact ⟨hs, Or.inl hts⟩
    | some t0 =>
      obtain ⟨w2, -, h2, -⟩ := stop_with_start_time stop_system_time rx_bytes tx_bytes now
        fprintf_ok fflush_ok stop_time w t0 hts
      rw [h2] at hrun2
      rw [← Except.ok.inj hrun2]
      refine ⟨Or.inl ?_, Or.inl ?_⟩
      · rw [stop_unlink_stats_file]
        rfl
      · simp only [stop_unlink, g_debug]
        split <;> rfl
  | teardown =>
    simp only [run_call] at hrun
    rw [← Except.ok.inj hrun]
    exact ⟨Or.inl rfl, Or.inl rfl⟩

/-- In every world reached from initial statics the stream is on the configured
path and the file of a session with a start timestamp is on disk. -/
theorem run_calls_keeps_session_file (calls : List Call) (w w1 : World)
    (hs : stream_on_path w) (hf : session_has_file w)
    (hrun : run_calls calls w = Except.ok w1) :
    stream_on_path w1 ∧ session_has_file w1 := by
  induction calls generalizing w with
  | nil =>
    simp only [run_calls] at hrun
    rw [← Except.ok.inj hrun]
    exact ⟨hs, hf⟩
  | cons c cs ih =>
    simp only [run_calls] at hrun
    cases hstep : run_call c w with
    | error e => simp [hstep] at hrun
    | ok w2 =>
      simp only [hstep] at hrun
      obtain ⟨hs2, hf2⟩ := run_call_keeps_session_file c w w2 hs hf hstep
      exact ih w2 hs2 hf2 hrun

/-! ## The steps of a stop -/

/-- Behind its first test `rmfd_stats_stop` is its four steps run in order. -/
theorem stop_eq_run_steps (t : Option GDateTime) (rx tx : Nat) (now : Int) (ok fl : Bool)
    (stop_time : Int) (w : World) (t0 : GDateTime) (h : w.start_system_time = some t0) :
    rmfd_stats_stop t rx tx now ok fl stop_time w
      = run_steps (stop_steps t rx tx now ok fl stop_time) w := by
  simp only [rmfd_stats_stop, h, stop_steps, run_steps]

/-- Claim C15, refuted as stated.  On the session in progress a stop whose
`fprintf` fails does not append the 'F' record: after its first step the file
still holds only the 'S' record.  The stop goes on all the same: in the end the
summary is in the syslog sink and the file is removed. -/
theorem C15_counterexample :
    (run_steps ((stop_steps none 2000 1000 1120 false true 1120).take 1) session_world).map
      (fun w => fs_lookup "/tmp/x".toList w.fs)
      = Except.ok (some
          ["S\t2015-01-01 00:00:00\t2015-01-01 00:00:00\t0\t0\t0\n".toList])
    ∧ (rmfd_stats_stop none 2000 1000 1120 false true 1120 session_world).map
      (fun w => (fs_lookup "/tmp/x".toList w.fs, w.syslog))
      = Except.ok (none, [(LOG_INFO, ("Connection stats [From: 2015-01-01 00:00:00] "
          ++ "[To: N/A] [Duration: 120] [RX: 2000] [TX: 1000]").toList)]) := by
  decide

/-- Claim C15, amended.  Take a world reached from initial statics by any series
of calls and holding a session-start timestamp, and a stop with any arguments,
clock values and outcome of the write.  A path is configured and the working
file is on disk, and the stop is its four steps in this order.  First the 'F'
record is handled: it is appended to the file when the stream is open and the
write reaches the file, and the file is left as it is otherwise; the syslog sink
is still as before.  Then the summary is emitted (the file still there, the
session fields and the stream unchanged).  Then the session fields are cleared
and the stream closed (the file still there).  Then the file is removed.  After
every number of these steps either the file still exists or the summary has
been added to the syslog sink. -/
theorem C15_stop_effects_in_order (w0 : World) (h0 : is_initial w0) (calls : List Call)
    (w : World) (hrun : run_calls calls w0 = Except.ok w)
    (t0 : GDateTime) (hstart : w.start_system_time = some t0)
    (t : Option GDateTime) (rx tx : Nat) (now : Int) (ok fl : Bool) (stop_time : Int) :
    ∃ path content w1 w2 w3 w4,
      w.stats_file_path = some path
      ∧ fs_lookup path w.fs = some content
      ∧ run_steps ((stop_steps t rx tx now ok fl stop_time).take 1) w = Except.ok w1
      ∧ run_steps ((stop_steps t rx tx now ok fl stop_time).take 2) w = Except.ok w2
      ∧ run_steps ((stop_steps t rx tx now ok fl stop_time).take 3) w = Except.ok w3
      ∧ run_steps (stop_steps t rx tx now ok fl stop_time) w = Except.ok w4
      ∧ rmfd_stats_stop t rx tx now ok fl stop_time w = Except.ok w4
      ∧ (fs_lookup path w1.fs
            = some (if w.stats_file.isSome && ok && fl then
                content ++ [record_line 'F' (g_date_time_format_F_T t0)
                  (system_time_str t) (duration w.start_time now) rx tx]
              else content)
          ∧ w1.syslog = w.syslog)
      ∧ (fs_lookup path w2.fs = fs_lookup path w1.fs
          ∧ w2.syslog = w.syslog ++ [(LOG_INFO, syslog_format (g_date_time_format_F_T t0)
              (system_time_str t) (duration w.start_time stop_time) rx tx)]
          ∧ w2.start_system_time = some t0
          ∧ w2.stats_file = w.stats_file)
      ∧ (fs_lookup path w3.fs = fs_lookup path w1.fs
          ∧ w3.syslog = w2.syslog
          ∧ w3.start_system_time = none
          ∧ w3.start_time = 0
          ∧ w3.stats_file = none)
      ∧ (fs_lookup path w4.fs = none
          ∧ w4.syslog = w2.syslog
          ∧ w4.start_system_time = none
          ∧ w4.stats_file = none)
      ∧ ∀ n : Nat, ∃ wn,
          run_steps ((stop_steps t rx tx now ok fl stop_time).take n) w = Except.ok wn
          ∧ (fs_exists path wn.fs = true
              ∨ wn.syslog = w.syslog ++ [(LOG_INFO, syslog_format (g_date_time_format_F_T t0)
                  (system_time_str t) (duration w.start_time stop_time) rx tx)]) := by
  have hs0 : stream_on_path w0 := Or.inl h0.1
  have hf0 : session_has_file w0 := Or.inl h0.2.2.1
  obtain ⟨hs, hf⟩ := run_calls_keeps_session_file calls w0 w hs0 hf0 hrun
  have hfile : ∃ path content, w.stats_file_path = some path
      ∧ fs_lookup path w.fs = some content := by
    rcases hf with h | h
    · rw [hstart] at h
      exact absurd h (by simp)
    · cases hp : w.stats_file_path with
      | none => simp [hp] at h
      | some path =>
        simp only [hp, Option.some_bind] at h
        cases hc : fs_lookup path w.fs with
        | none => simp [hc] at h
        | some content => exact ⟨path, content, rfl, hc⟩
  obtain ⟨path, content, hpath, hc⟩ := hfile
  obtain ⟨w1, h1, hfs1, hf1, hp1, hst1, htime1, hsys1, -⟩ := write_record_effect 'F'
    w.start_system_time w.start_time t now rx tx ok fl w (Or.inr (Or.inr rfl))
  have h1' : stop_final_record t rx tx now ok fl w = Except.ok w1 := h1
  have hc1 : fs_lookup path w1.fs
      = some (if w.stats_file.isSome && ok && fl then
          content ++ [record_line 'F' (g_date_time_format_F_T t0)
            (system_time_str t) (duration w.start_time now) rx tx]
        else content) := by
    rw [hfs1]
    cases hstream : w.stats_file with
    | none => simpa using hc
    | some f =>
      have hfp : f.path = path := by
        rcases hs with h | h
        · rw [hstream] at h
          exact absurd h (by simp)
        · rw [hstream, hpath] at h
          simpa using h
      by_cases hok : (ok && fl) = true
      · simp only [hok, if_true, Option.isSome_some, Bool.true_and]
        rw [hfp, hstart]
        exact fs_lookup_append _ _ _ _ hc
      · have hok' : (ok && fl) = false := by simpa using hok
        simp only [hok', Option.isSome_some, Bool.true_and]
        simpa using hc
  have hsys2 : (stop_syslog t rx tx stop_time w1).syslog
      = w.syslog ++ [(LOG_INFO, syslog_format (g_date_time_format_F_T t0)
          (system_time_str t) (duration w.start_time stop_time) rx tx)] := by
    simp only [stop_syslog, write_syslog_record, rmfd_syslog, g_debug]
    rw [hsys1, hst1, htime1, hstart]
    rfl
  have hpath3 : (stop_cleanup (stop_syslog t rx tx stop_time w1)).stats_file_path
      = some path := by
    simp only [stop_cleanup, stop_syslog, write_syslog_record, rmfd_syslog, g_debug]
    rw [hp1, hpath]
  have hex0 : fs_exists path w.fs = true := by
    simp [fs_exists, hc]
  have hex1 : fs_exists path w1.fs = true := by
    simp only [fs_exists, hc1]
    rfl
  have hr1 : run_steps ((stop_steps t rx tx now ok fl stop_time).take 1) w
      = Except.ok w1 := by
    simp [stop_steps, run_steps, h1']
  have hr2 : run_steps ((stop_steps t rx tx now ok fl stop_time).take 2) w
      = Except.ok (stop_syslog t rx tx stop_time w1) := by
    simp [stop_steps, run_steps, h1']
  have hr3 : run_steps ((stop_steps t rx tx now ok fl stop_time).take 3) w
      = Except.ok (stop_cleanup (stop_syslog t rx tx stop_time w1)) := by
    simp [stop_steps, run_steps, h1']
  have hr4 : run_steps (stop_steps t rx tx now ok fl stop_time) w
      = Except.ok (stop_unlink (stop_cleanup (stop_syslog t rx tx stop_time w1))) := by
    simp [stop_steps, run_steps, h1']
  refine ⟨path, content, w1, stop_syslog t rx tx stop_time w1,
    stop_cleanup (stop_syslog t rx tx stop_time w1),
    stop_unlink (stop_cleanup (stop_syslog t rx tx stop_time w1)),
    hpath, hc, hr1, hr2, hr3, hr4, ?_, ⟨hc1, hsys1⟩, ⟨rfl, hsys2, ?_, ?_⟩,
    ⟨rfl, rfl, rfl, rfl, rfl⟩,
    ⟨stop_unlink_removes _ path hpath3, ?_, ?_, ?_⟩, ?_⟩
  · rw [stop_eq_run_steps t rx tx now ok fl stop_time w t0 hstart]
    exact hr4
  · show w1.start_system_time = some t0
    rw [hst1, hstart]
  · show w1.stats_file = w.stats_file
    exact hf1
  · rw [stop_unlink_syslog]
    rfl
  · simp only [stop_unlink, g_debug]
    split <;> rfl
  · rw [stop_unlink_stats_file]
    rfl
  · intro n
    rcases n with _ | _ | _ | _ | n
    · exact ⟨w, rfl, Or.inl hex0⟩
    · exact ⟨w1, hr1, Or.inl hex1⟩
    · exact ⟨_, hr2, Or.inr hsys2⟩
    · exact ⟨_, hr3, Or.inr hsys2⟩
    · refine ⟨stop_unlink (stop_cleanup (stop_syslog t rx tx stop_time w1)), ?_, Or.inr ?_⟩
      · have htake : (stop_steps t rx tx now ok fl stop_time).take (n + 1 + 1 + 1 + 1)
            = stop_steps t rx tx now ok fl stop_time := by
          simp [stop_steps]
        rw [htake]
        exact hr4
      · rw [stop_unlink_syslog]
        exact hsys2

/-- The instance of C15_stop_effects_in_order on the session in progress, reached
from the fresh world by a setup and a start, and stopped while the clock reads
1120 with the write reaching the file. -/
theorem C15_stop_effects_in_order_witness :
    ∃ path content w1 w2 w3 w4,
      session_world.stats_file_path = some path
      ∧ fs_lookup path session_world.fs = some content
      ∧ run_steps ((stop_steps none 2000 1000 1120 true true 1120).take 1) session_world
        = Except.ok w1
      ∧ run_steps ((stop_steps none 2000 1000 1120 true true 1120).take 2) session_world
        = Except.ok w2
      ∧ run_steps ((stop_steps none 2000 1000 1120 true true 1120).take 3) session_world
        = Except.ok w3
      ∧ run_steps (stop_steps none 2000 1000 1120 true true 1120) session_world = Except.ok w4
      ∧ rmfd_stats_stop none 2000 1000 1120 true true 1120 session_world = Except.ok w4
      ∧ (fs_lookup path w1.fs
            = some (if session_world.stats_file.isSome && true && true then
                content ++ [record_line 'F' (g_date_time_format_F_T ⟨2015, 1, 1, 0, 0, 0⟩)
                  (system_time_str none) (duration session_world.start_time 1120) 2000 1000]
              else content)
          ∧ w1.syslog = session_world.syslog)
      ∧ (fs_lookup path w2.fs = fs_lookup path w1.fs
          ∧ w2.syslog = session_world.syslog ++ [(LOG_INFO, syslog_format
              (g_date_time_format_F_T ⟨2015, 1, 1, 0, 0, 0⟩) (system_time_str none)
              (duration session_world.start_time 1120) 2000 1000)]
          ∧ w2.start_system_time = some ⟨2015, 1, 1, 0, 0, 0⟩
          ∧ w2.stats_file = session_world.stats_file)
      ∧ (fs_lookup path w3.fs = fs_lookup path w1.fs
          ∧ w3.syslog = w2.syslog
          ∧ w3.start_system_time = none
          ∧ w3.start_time = 0
          ∧ w3.stats_file = none)
      ∧ (fs_lookup path w4.fs = none
          ∧ w4.syslog = w2.syslog
          ∧ w4.start_system_time = none
          ∧ w4.stats_file = none)
      ∧ ∀ n : Nat, ∃ wn,
          run_steps ((stop_steps none 2000 1000 1120 true true 1120).take n) session_world
            = Except.ok wn
          ∧ (fs_exists path wn.fs = true
              ∨ wn.syslog = session_world.syslog ++ [(LOG_INFO, syslog_format
                  (g_date_time_format_F_T ⟨2015, 1, 1, 0, 0, 0⟩) (system_time_str none)
                  (duration session_world.start_time 1120) 2000 1000)]) :=
  C15_stop_effects_in_order fresh_world (by decide)
    [Call.setup (some "/tmp/x".toList),
     Call.start (some ⟨2015, 1, 1, 0, 0, 0⟩) true 1000 true true]
    session_world (by decide) ⟨2015, 1, 1, 0, 0, 0⟩ rfl none 2000 1000 1120 true true 1120

/-- A series of checkpoints neither creates nor removes a file. -/
theorem run_tmp_calls_keeps_files (calls : List TmpCall) (w w1 : World)
    (h : run_tmp_calls calls w = Except.ok w1) (path : gstring) :
    (fs_lookup path w1.fs).isSome = (fs_lookup path w.fs).isSome := by
  induction calls generalizing w with
  | nil =>
    simp only [run_tmp_calls] at h
    rw [← Except.ok.inj h]
  | cons c cs ih =>
    simp only [run_tmp_calls] at h
    cases hstep : rmfd_stats_tmp c.tmp_system_time c.rx_bytes c.tx_bytes c.now c.fprintf_ok
        c.fflush_ok w with
    | error e => simp [hstep] at h
    | ok w2 =>
      simp only [hstep] at h
      rw [ih w2 h]
      exact write_record_keeps_files _ _ _ _ _ _ _ _ _ w w2 hstep path

/-- Claim C16.  `rmfd_stats_stop` tests the stored session-start timestamp and
nothing else: without one it returns the world as it is whatever the stream, and
with one it emits its summary even when there is no stream.  So after a start
without system time (`NULL`) that opens the file, and any checkpoints, whatever
the outcomes of their writes, a stop with any arguments does nothing at all: the
world is unchanged, the stream is still open, the syslog sink is as it was
before the start, and the file is still on disk; when every write reached the
file it holds its 'S' record and its 'P' records, spelled out. -/
theorem C16_stop_tests_start_time_only (w : World) (path : gstring)
    (hp : w.stats_file_path = some path) (now0 : Int) (ok0 fl0 : Bool)
    (calls : List TmpCall)
    (t : Option GDateTime) (rx tx : Nat) (now : Int) (ok fl : Bool) (stop_time : Int) :
    ∃ w1 w2, rmfd_stats_start none true now0 ok0 fl0 w = Except.ok w1
      ∧ run_tmp_calls calls w1 = Except.ok w2
      ∧ rmfd_stats_stop t rx tx now ok fl stop_time w2 = Except.ok w2
      ∧ w2.stats_file = some { path := path }
      ∧ w2.start_system_time = none
      ∧ w2.syslog = w.syslog
      ∧ (fs_lookup path w2.fs).isSome = true
      ∧ (ok0 = true → fl0 = true →
          (∀ c ∈ calls, c.fprintf_ok = true ∧ c.fflush_ok = true) →
          fs_lookup path w2.fs = some
            ([record_line 'S' "N/A".toList "N/A".toList 0 0 0]
              ++ calls.map (fun c => record_line 'P' "N/A".toList
                  (system_time_str c.tmp_system_time) (duration now0 c.now)
                  c.rx_bytes c.tx_bytes)))
      ∧ (∀ w3 : World, w3.start_system_time = none →
          rmfd_stats_stop t rx tx now ok fl stop_time w3 = Except.ok w3)
      ∧ (∀ (w3 : World) (t0 : GDateTime), w3.start_system_time = some t0 →
          w3.stats_file = none →
          ∃ w4, rmfd_stats_stop t rx tx now ok fl stop_time w3 = Except.ok w4
            ∧ w4.syslog = w3.syslog ++ [(LOG_INFO, syslog_format (g_date_time_format_F_T t0)
                (system_time_str t) (duration w3.start_time stop_time) rx tx)]) := by
  obtain ⟨w1, h1, hex1, hf1, -, hst1⟩ := start_opened_file none now0 ok0 fl0 w path hp
  obtain ⟨w1b, h1b, -, -, -, -, hsys1⟩ := start_opened none now0 ok0 fl0 w path hp
  have e1 : w1b = w1 := by
    rw [h1] at h1b
    exact (Except.ok.inj h1b).symm
  subst e1
  obtain ⟨w2, h2, hf2, -, hst2, -, hsys2⟩ := run_tmp_calls_frame calls w1b
  refine ⟨w1b, w2, h1, h2, stop_without_start_time _ _ _ _ _ _ _ _ (hst2.trans hst1),
    hf2.trans hf1, hst2.trans hst1, hsys2.trans hsys1, ?_, ?_,
    fun w3 h3 => stop_without_start_time _ _ _ _ _ _ _ _ h3, ?_⟩
  · rw [run_tmp_calls_keeps_files calls w1b w2 h2 path]
    exact hex1
  · intro hok0 hfl0 hok
    subst hok0
    subst hfl0
    obtain ⟨w1c, h1c, hc1, hf1c, -, hst1c, htime1c, -⟩ :=
      start_opened_content none now0 w path hp
    have e1 : w1c = w1b := by
      rw [h1] at h1c
      exact (Except.ok.inj h1c).symm
    subst e1
    obtain ⟨w2c, h2c, hc2, -⟩ :=
      run_tmp_calls_content calls w1c { path := path } _ hf1c hc1 hok
    have e2 : w2c = w2 := by
      rw [h2] at h2c
      exact (Except.ok.inj h2c).symm
    subst e2
    rw [hc2]
    have htl : tmp_line w1c = fun c => record_line 'P' "N/A".toList
        (system_time_str c.tmp_system_time) (duration now0 c.now) c.rx_bytes c.tx_bytes := by
      funext c
      simp [tmp_line, hst1c, htime1c, system_time_str]
    rw [htl]
    rfl
  · intro w3 t0 h3 hnofile
    obtain ⟨w4, -, hstop, -, -, hst4, htime4, hsys4⟩ :=
      stop_with_start_time t rx tx now ok fl stop_time w3 t0 h3
    refine ⟨_, hstop, ?_⟩
    rw [stop_unlink_syslog]
    simp only [stop_cleanup, stop_syslog, write_syslog_record, rmfd_syslog, g_debug]
    rw [hsys4, hst4, htime4, h3]
    rfl

/-- The instance of C16_stop_tests_start_time_only after a setup of "/tmp/x", with
one checkpoint and every write reaching the file. -/
theorem C16_stop_tests_start_time_only_witness :
    ∃ w1 w2, rmfd_stats_start none true 1000 true true
        { fresh_world with stats_file_path := some "/tmp/x".toList } = Except.ok w1
      ∧ run_tmp_calls [{ tmp_system_time := some ⟨2015, 1, 1, 0, 1, 0⟩, rx_bytes := 1000,
                         tx_bytes := 500, now := 1060, fprintf_ok := true,
                         fflush_ok := true }] w1 = Except.ok w2
      ∧ rmfd_stats_stop (some ⟨2015, 1, 1, 0, 2, 0⟩) 2000 1000 1120 true true 1120 w2
          = Except.ok w2
      ∧ w2.stats_file = some { path := "/tmp/x".toList }
      ∧ w2.start_system_time = none
      ∧ w2.syslog = []
      ∧ (fs_lookup "/tmp/x".toList w2.fs).isSome = true
      ∧ (true = true → true = true →
          (∀ c ∈ [({ tmp_system_time := some ⟨2015, 1, 1, 0, 1, 0⟩, rx_bytes := 1000,
                     tx_bytes := 500, now := 1060, fprintf_ok := true,
                     fflush_ok := true } : TmpCall)],
            c.fprintf_ok = true ∧ c.fflush_ok = true) →
          fs_lookup "/tmp/x".toList w2.fs = some
            ([record_line 'S' "N/A".toList "N/A".toList 0 0 0]
              ++ [({ tmp_system_time := some ⟨2015, 1, 1, 0, 1, 0⟩, rx_bytes := 1000,
                     tx_bytes := 500, now := 1060, fprintf_ok := true,
                     fflush_ok := true } : TmpCall)].map
                  (fun c : TmpCall => record_line 'P' "N/A".toList
                    (system_time_str c.tmp_system_time) (duration 1000 c.now)
                    c.rx_bytes c.tx_bytes)))
      ∧ (∀ w3 : World, w3.start_system_time = none →
          rmfd_stats_stop (some ⟨2015, 1, 1, 0, 2, 0⟩) 2000 1000 1120 true true 1120 w3
            = Except.ok w3)
      ∧ (∀ (w3 : World) (t0 : GDateTime), w3.start_system_time = some t0 →
          w3.stats_file = none →
          ∃ w4, rmfd_stats_stop (some ⟨2015, 1, 1, 0, 2, 0⟩) 2000 1000 1120 true true 1120 w3
              = Except.ok w4
            ∧ w4.syslog = w3.syslog ++ [(LOG_INFO, syslog_format (g_date_time_format_F_T t0)
                (system_time_str (some ⟨2015, 1, 1, 0, 2, 0⟩))
                (duration w3.start_time 1120) 2000 1000)]) :=
  C16_stop_tests_start_time_only { fresh_world with stats_file_path := some "/tmp/x".toList }
    "/tmp/x".toList rfl 1000 true true
    [{ tmp_system_time := some ⟨2015, 1, 1, 0, 1, 0⟩, rx_bytes := 1000, tx_bytes := 500,
       now := 1060, fprintf_ok := true, fflush_ok := true }]
    (some ⟨2015, 1, 1, 0, 2, 0⟩) 2000 1000 1120 true true 1120

/-- Claim C17.  `rmfd_stats_teardown` leaves the files on disk as they are, in
every world: the set of files and the content of each, the working file with its
records among them, are the same after it as before (only `rmfd_stats_stop`
removes the working file). -/
theorem C17_teardown_keeps_files (w : World) :
    (rmfd_stats_teardown w).fs = w.fs
    ∧ (∀ path : gstring,
        fs_lookup path (rmfd_stats_teardown w).fs = fs_lookup path w.fs
        ∧ fs_exists path (rmfd_stats_teardown w).fs = fs_exists path w.fs) :=
  ⟨rfl, fun _ => ⟨rfl, rfl⟩⟩

end Rmfd
